import Mathlib

/-!
ADS1220 driver: shallow embedding and verified properties.

The C++ class `ADS1220` (src/ADS1220.h, src/ADS1220.cpp) is embedded as a
record of its data members together with an explicit model of the outside
world (the SPI bus, the chip-select callbacks and the millisecond delay).

Conventions of the embedding

* `uint8_t` / `uint32_t` values are natural numbers; every store into a
  narrower object is written with an explicit `% 256` or `% 2 ^ 32`.
* `float` values are rationals; `none` stands for a value that is not finite
  (IEEE infinity / NaN) and is carried through the products and sums that
  depend on it.  The float expressions of `setFilterIntensity` and `update`
  are evaluated exactly (the properties of the filter are stated in exact
  arithmetic).  `setLinearRegression` and `updateBinary32` evaluate the same
  source lines in binary32: every conversion and every operation is rounded
  to 24 significant bits, to nearest with ties to even, one operation at a
  time (a product and the sum that follows it are rounded separately, not
  fused).
* A method `T ADS1220::m(args)` becomes `m : args → State → T × State`
  (`State → State` for a `void` method).
-/

namespace ADS1220Driver

/-! ## Constants of the header -/

/-- The enum ADS1220command (ADS1220.h lines 16-22). -/
def ADS1220command.reset : Nat := 0b00000110
/-- The start/sync command byte. -/
def ADS1220command.startSync : Nat := 0b00001000
/-- The power-down command byte. -/
def ADS1220command.powerdown : Nat := 0b00000010
/-- The read-data command byte. -/
def ADS1220command.rdata : Nat := 0b00010000

/-- The enum ADS1220flag (ADS1220.h lines 24-31). -/
def ADS1220flag.unspecified : Nat := 0x00
/-- The flag value returned when no error was found. -/
def ADS1220flag.noErrors : Nat := 0x00
/-- The flag value that marks a call made from the DRDY interrupt. -/
def ADS1220flag.onDRDY : Nat := 0x0D
/-- The flag value that keeps chip-select low after a sample. -/
def ADS1220flag.keepSSLo : Nat := 0x55
/-- The flag value of a device that was armed by ready(). -/
def ADS1220flag.deviceReady : Nat := 0xFF

/-! ## The outside world -/

/-- What the driver does to its environment, in program order. -/
inductive Event where
  /-- HAL_Delay(ms). -/
  | delay (ms : Nat)
  /-- A call of an installed chip-select callback, named by its address. -/
  | call (fn : Nat)
  /-- One full-duplex byte exchange on the SPI bus, with the byte sent. -/
  | exchange (sent : Nat)
  deriving DecidableEq, Repr

/-- The environment: the byte the device answers to the n-th exchange,
the number of exchanges made so far, and the log of events. -/
structure World where
  replies : Nat → Nat
  pos : Nat
  trace : List Event

/-- A float value that may be the outcome of a division by zero. -/
abbrev FVal := Option ℚ

/-- Float product of a possibly undefined value and an exact one. -/
def fmul (a : FVal) (b : ℚ) : FVal := a.map (fun x => x * b)

/-- Float sum of two possibly undefined values. -/
def fadd (a b : FVal) : FVal :=
  match a, b with
  | some x, some y => some (x + y)
  | _, _ => none

/-- Rounding of a rational to the nearest integer, ties to the even one. -/
def roundNearestEven (q : ℚ) : ℤ :=
  let f := Rat.floor q
  let r := q - (f : ℚ)
  if r < 1 / 2 then f
  else if 1 / 2 < r then f + 1
  else if f % 2 = 0 then f else f + 1

/-- Rounding to the binary32 grid, before the overflow check: a non-zero x
with 2^e <= |x| < 2^(e+1) is rounded to a multiple of 2^(e-23), and to a
multiple of 2^(-149) in the subnormal range e < -126. -/
def f32round (x : ℚ) : ℚ :=
  if x = 0 then 0
  else
    let e := max (Int.log 2 |x|) (-126)
    (roundNearestEven (x / (2 : ℚ) ^ (e - 23)) : ℚ) * (2 : ℚ) ^ (e - 23)

/-- Rounding to binary32: a result of magnitude 2^128 or more is infinite. -/
def f32 (x : ℚ) : FVal :=
  if |f32round x| < (2 : ℚ) ^ (128 : ℕ) then some (f32round x) else none

/-- The conversion `(float)` of a uint32_t; it cannot overflow. -/
def f32ofUInt32 (n : Nat) : ℚ := f32round ((n % 2 ^ 32 : Nat) : ℚ)

/-- The binary32 sum. -/
def f32add (a b : FVal) : FVal :=
  match a, b with
  | some x, some y => f32 (x + y)
  | _, _ => none

/-- The binary32 difference. -/
def f32sub (a b : FVal) : FVal :=
  match a, b with
  | some x, some y => f32 (x - y)
  | _, _ => none

/-- The binary32 product. -/
def f32mul (a b : FVal) : FVal :=
  match a, b with
  | some x, some y => f32 (x * y)
  | _, _ => none

/-- The binary32 quotient by a finite divisor: a zero divisor gives an
infinity or a NaN. -/
def f32div (a : FVal) (b : ℚ) : FVal :=
  match a with
  | some x => if b = 0 then none else f32 (x / b)
  | none => none

/-- Conversion float to uint32_t: truncation, kept to 32 bits. -/
def toUInt32 (x : ℚ) : Nat := (Rat.floor x).toNat % 2 ^ 32

/-! ## The object -/

/-- The data members of class ADS1220 (ADS1220.h lines 51-66).  A function
pointer is `none` for nullptr and `some address` otherwise. -/
structure ADS1220 where
  configReg0 : Nat
  configReg1 : Nat
  configReg2 : Nat
  configReg3 : Nat
  _spiHandler : Nat
  _isReady : Nat
  _raw : Nat
  _filteredRaw : ℚ
  _offsetRaw : Int
  _filterAlpha : ℚ
  _filterAlphaCompl : ℚ
  _regressionCoeffA : FVal
  _regressionCoeffB : FVal
  _regressionResult : FVal
  _hwCtrSSLo : Option Nat
  _hwCtrSSHi : Option Nat

/-- The object together with its environment. -/
structure State where
  dev : ADS1220
  world : World

/-- The constructor (ADS1220.cpp lines 21-33) with the default member
initialisers of the header.  `_raw` and `_filteredRaw` have no initialiser:
their first values are whatever the storage held. -/
def ADS1220.ctor (spiHandler : Nat) (raw0 : Nat) (filtered0 : ℚ) : ADS1220 :=
  { configReg0 := ADS1220flag.unspecified
    configReg1 := ADS1220flag.unspecified
    configReg2 := ADS1220flag.unspecified
    configReg3 := ADS1220flag.unspecified
    _spiHandler := spiHandler
    _isReady := ADS1220flag.unspecified
    _raw := raw0 % 2 ^ 32
    _filteredRaw := filtered0
    _offsetRaw := 0
    _filterAlpha := 0
    _filterAlphaCompl := 1
    _regressionCoeffA := some 0
    _regressionCoeffB := some 0
    _regressionResult := some 0
    _hwCtrSSLo := none
    _hwCtrSSHi := none }

/-! ## Primitives supplied by the platform -/

/-- The macro __delayms (ADS1220.cpp line 11): HAL_Delay, seen as an event. -/
def delayms (ms : Nat) (s : State) : State :=
  { s with world := { s.world with trace := s.world.trace ++ [Event.delay ms] } }

/-- The empty counting loop `for (wait = 0; wait < 100; wait++);`: it ends
after 100 rounds and touches no member. -/
def busyWait (s : State) : State := s

/-- The method transceive8 (ADS1220.cpp lines 230-236): one exchange of one
byte through HAL_SPI_TransmitReceive.  The received byte is returned and
the call site stores it where the receive pointer points (nowhere for
nullptr).  The HAL routine is not part of the repository; it is taken as a
full-duplex exchange that always sends one byte and receives one byte. -/
def transceive8 (sendBuffer : Nat) (s : State) : Nat × State :=
  (s.world.replies s.world.pos % 256,
   { s with world :=
      { s.world with
        pos := s.world.pos + 1
        trace := s.world.trace ++ [Event.exchange (sendBuffer % 256)] } })

/-- A store through `(uint8_t *)&_raw`: the least significant byte of the
32-bit member is replaced (little-endian target). -/
def storeRawByte (b : Nat) (s : State) : State :=
  { s with dev := { s.dev with _raw := (s.dev._raw / 256) * 256 + b % 256 } }

/-! ## Methods -/

/-- The method appendHardwareControlSS (ADS1220.cpp lines 42-46). -/
def appendHardwareControlSS (hwCtrSSLo hwCtrSSHi : Option Nat) (s : State) : State :=
  let s := if hwCtrSSLo ≠ none then { s with dev := { s.dev with _hwCtrSSLo := hwCtrSSLo } } else s
  let s := if hwCtrSSHi ≠ none then { s with dev := { s.dev with _hwCtrSSHi := hwCtrSSHi } } else s
  s

/-- The method slaveSelect (ADS1220.cpp lines 137-143). -/
def slaveSelect (s : State) : State :=
  match s.dev._hwCtrSSLo with
  | none => s
  | some fn =>
    let s := { s with world := { s.world with trace := s.world.trace ++ [Event.call fn] } }
    busyWait s

/-- The method slaveRelease (ADS1220.cpp lines 145-151). -/
def slaveRelease (s : State) : State :=
  match s.dev._hwCtrSSHi with
  | none => s
  | some fn =>
    let s := busyWait s
    { s with world := { s.world with trace := s.world.trace ++ [Event.call fn] } }

/-- The method command (ADS1220.cpp lines 153-154): the reply is dropped. -/
def command (cmd : Nat) (s : State) : State :=
  (transceive8 cmd s).2

/-- The method updateRegisters (ADS1220.cpp lines 156-175). -/
def updateRegisters (s : State) : State :=
  let rawSave := s.dev._raw
  let (r, s) := transceive8 0b01000011 s
  let s := storeRawByte r s
  let (r, s) := transceive8 s.dev.configReg0 s
  let s := storeRawByte r s
  let (r, s) := transceive8 s.dev.configReg1 s
  let s := storeRawByte r s
  let (r, s) := transceive8 s.dev.configReg2 s
  let s := storeRawByte r s
  let (r, s) := transceive8 s.dev.configReg3 s
  let s := storeRawByte r s
  let s := busyWait s
  let (r, s) := transceive8 0b00100011 s
  let s := storeRawByte r s
  let (r, s) := transceive8 0xFF s
  let s := { s with dev := { s.dev with configReg0 := r } }
  let (r, s) := transceive8 0xFF s
  let s := { s with dev := { s.dev with configReg1 := r } }
  let (r, s) := transceive8 0xFF s
  let s := { s with dev := { s.dev with configReg2 := r } }
  let (r, s) := transceive8 0xFF s
  let s := { s with dev := { s.dev with configReg3 := r } }
  { s with dev := { s.dev with _raw := rawSave } }

/-- The default of configuration register 0 (ADS1220.cpp lines 60-62). -/
def defaultReg0 : Nat := (0b0000 <<< 4 ||| 0b111 <<< 1 ||| 0b0 <<< 0) % 256
/-- The default of configuration register 1 (ADS1220.cpp lines 67-71). -/
def defaultReg1 : Nat :=
  (0b110 <<< 5 ||| 0b10 <<< 3 ||| 0b1 <<< 2 ||| 0b0 <<< 1 ||| 0b0 <<< 0) % 256
/-- The default of configuration register 2 (ADS1220.cpp lines 76-79). -/
def defaultReg2 : Nat := (0b10 <<< 6 ||| 0b00 <<< 4 ||| 0b1 <<< 3 ||| 0b000 <<< 0) % 256
/-- The default of configuration register 3 (ADS1220.cpp lines 84-87). -/
def defaultReg3 : Nat := (0b000 <<< 5 ||| 0b000 <<< 2 ||| 0b0 <<< 1 ||| 0b0 <<< 0) % 256

/-- The method init (ADS1220.cpp lines 48-105). -/
def init (s : State) : Nat × State :=
  let s := delayms 100 s
  let s := slaveSelect s
  let s := command ADS1220command.reset s
  let s := delayms 10 s
  let s := if s.dev.configReg0 = ADS1220flag.unspecified
    then { s with dev := { s.dev with configReg0 := defaultReg0 } } else s
  let s := if s.dev.configReg1 = ADS1220flag.unspecified
    then { s with dev := { s.dev with configReg1 := defaultReg1 } } else s
  let s := if s.dev.configReg2 = ADS1220flag.unspecified
    then { s with dev := { s.dev with configReg2 := defaultReg2 } } else s
  let s := if s.dev.configReg3 = ADS1220flag.unspecified
    then { s with dev := { s.dev with configReg3 := defaultReg3 } } else s
  let sanityCheck0 := s.dev.configReg0
  let sanityCheck1 := s.dev.configReg1
  let sanityCheck2 := s.dev.configReg2
  let sanityCheck3 := s.dev.configReg3
  let errorsCount := ADS1220flag.noErrors
  let s := updateRegisters s
  let s := slaveRelease s
  let s := delayms 10 s
  if sanityCheck0 ≠ s.dev.configReg0 then (1, s)
  else if sanityCheck1 ≠ s.dev.configReg1 then (2, s)
  else if sanityCheck2 ≠ s.dev.configReg2 then (3, s)
  else if sanityCheck3 ≠ s.dev.configReg3 then (4, s)
  else (errorsCount, s)

/-- The method setGain (ADS1220.cpp lines 107-119).  The operand of `&` is
the 32-bit complement of `0b111 << 1`. -/
def setGain (gain : Nat) (s : State) : Nat × State :=
  let CR0save := s.dev.configReg0
  let s := { s with dev := { s.dev with
    configReg0 := (s.dev.configReg0 &&& (0xFFFFFFFF - (0b111 <<< 1))) % 256 } }
  let s := { s with dev := { s.dev with
    configReg0 := (s.dev.configReg0 ||| (gain <<< 1)) % 256 } }
  let s := slaveSelect s
  let s := updateRegisters s
  let s := slaveRelease s
  if CR0save = s.dev.configReg0 then (ADS1220flag.noErrors, s)
  else (1, s)

/-- The method getGain (ADS1220.cpp lines 121-126). -/
def getGain (s : State) : Nat × State :=
  let gain := ((s.dev.configReg0 >>> 1) &&& 0b00000111) % 256
  let gain := (2 ^ gain) % 256
  (gain, s)

/-- The method setFilterIntensity (ADS1220.cpp lines 128-135). -/
def setFilterIntensity (intensity : ℚ) (s : State) : State :=
  let intensity := if intensity < 0 then 0 else intensity
  let intensity := if intensity ≥ 1 then 999999 / 1000000 else intensity
  { s with dev := { s.dev with
      _filterAlpha := intensity
      _filterAlphaCompl := 1 - intensity } }

/-- The method ready (ADS1220.cpp lines 177-182). -/
def ready (s : State) : State :=
  let s := slaveSelect s
  let s := command ADS1220command.startSync s
  { s with dev := { s.dev with _isReady := ADS1220flag.deviceReady } }

/-- The method halt (ADS1220.cpp lines 184-188). -/
def halt (s : State) : State :=
  let s := { s with dev := { s.dev with _isReady := ADS1220flag.unspecified } }
  slaveRelease s

/-- The method update (ADS1220.cpp lines 190-216). -/
def update (DRDYdependence pullSSHi : Nat) (s : State) : State :=
  if s.dev._isReady ≠ ADS1220flag.deviceReady then s
  else
    let s := slaveSelect s
    let s := if DRDYdependence ≠ ADS1220flag.onDRDY
      then command ADS1220command.rdata s else s
    let (buffer0, s) := transceive8 0xFF s
    let (buffer1, s) := transceive8 0xFF s
    let (buffer2, s) := transceive8 0xFF s
    let s := { s with dev := { s.dev with
      _raw := ((buffer0 <<< 16) ||| (buffer1 <<< 8) ||| (buffer2 <<< 0)) % 2 ^ 32 } }
    let s := if s.dev._filterAlpha ≤ (0 : ℚ)
      then { s with dev := { s.dev with _filteredRaw := (s.dev._raw : ℚ) } }
      else { s with dev := { s.dev with
        _filteredRaw := s.dev._filterAlpha * s.dev._filteredRaw
          + s.dev._filterAlphaCompl * (s.dev._raw : ℚ) } }
    let s := { s with dev := { s.dev with
      _regressionResult := fadd (fmul s.dev._regressionCoeffA s.dev._filteredRaw)
        s.dev._regressionCoeffB } }
    if pullSSHi = ADS1220flag.keepSSLo then s
    else slaveRelease s

/-- The method update (ADS1220.cpp lines 190-216) with lines 207-210
evaluated in binary32.  The result is `none` when the filter expression of
line 208 overflows: the member `_filteredRaw` of the record has no infinite
value.  With alpha <= 0 line 207 is a conversion and the result is defined. -/
def updateBinary32 (DRDYdependence pullSSHi : Nat) (s : State) : Option State :=
  if s.dev._isReady ≠ ADS1220flag.deviceReady then some s
  else
    let s := slaveSelect s
    let s := if DRDYdependence ≠ ADS1220flag.onDRDY
      then command ADS1220command.rdata s else s
    let (buffer0, s) := transceive8 0xFF s
    let (buffer1, s) := transceive8 0xFF s
    let (buffer2, s) := transceive8 0xFF s
    let s := { s with dev := { s.dev with
      _raw := ((buffer0 <<< 16) ||| (buffer1 <<< 8) ||| (buffer2 <<< 0)) % 2 ^ 32 } }
    let filtered : FVal := if s.dev._filterAlpha ≤ (0 : ℚ)
      then some (f32ofUInt32 s.dev._raw)
      else f32add (f32 (s.dev._filterAlpha * s.dev._filteredRaw))
        (f32 (s.dev._filterAlphaCompl * f32ofUInt32 s.dev._raw))
    match filtered with
    | none => none
    | some f =>
      let s := { s with dev := { s.dev with _filteredRaw := f } }
      let s := { s with dev := { s.dev with
        _regressionResult := f32add (f32mul s.dev._regressionCoeffA (some s.dev._filteredRaw))
          s.dev._regressionCoeffB } }
      if pullSSHi = ADS1220flag.keepSSLo then some s
      else some (slaveRelease s)

/-- The method getRaw (ADS1220.cpp lines 218-219). -/
def getRaw (s : State) : Nat × State := (toUInt32 s.dev._filteredRaw, s)

/-- The method setLinearRegression (ADS1220.cpp lines 221-225), in binary32.
The arguments value1 and value2 are the float values passed; the counts are
uint32_t.  The divisor is the rounded difference of the two converted
counts; both are at most 2^32, so it is finite. -/
def setLinearRegression (value1 : ℚ) (raw1 : Nat) (value2 : ℚ) (raw2 : Nat)
    (s : State) : State :=
  let s := { s with dev := { s.dev with
    _regressionCoeffA := f32div (f32 (value2 - value1))
      (f32round (f32ofUInt32 raw2 - f32ofUInt32 raw1)) } }
  { s with dev := { s.dev with
    _regressionCoeffB := f32sub (some value1)
      (f32mul s.dev._regressionCoeffA (some (f32ofUInt32 raw1))) } }

/-- The method getLinearRegression (ADS1220.cpp lines 227-228). -/
def getLinearRegression (s : State) : FVal × State := (s.dev._regressionResult, s)

/-! ## Sequences of calls -/

/-- One use of the public interface: a method call, or a store into one of
the four public register members. -/
inductive Call where
  | appendHardwareControlSS (hwCtrSSLo hwCtrSSHi : Option Nat)
  | init
  | setGain (gain : Nat)
  | getGain
  | setFilterIntensity (intensity : ℚ)
  | slaveSelect
  | slaveRelease
  | command (cmd : Nat)
  | updateRegisters
  | ready
  | halt
  | update (DRDYdependence pullSSHi : Nat)
  | getRaw
  | setLinearRegression (value1 : ℚ) (raw1 : Nat) (value2 : ℚ) (raw2 : Nat)
  | getLinearRegression
  | writeReg (index : Fin 4) (value : Nat)

/-- The state after one call (the returned value is dropped). -/
def step (c : Call) (s : State) : State :=
  match c with
  | .appendHardwareControlSS lo hi => appendHardwareControlSS lo hi s
  | .init => (init s).2
  | .setGain g => (setGain g s).2
  | .getGain => (getGain s).2
  | .setFilterIntensity x => setFilterIntensity x s
  | .slaveSelect => slaveSelect s
  | .slaveRelease => slaveRelease s
  | .command c => command c s
  | .updateRegisters => updateRegisters s
  | .ready => ready s
  | .halt => halt s
  | .update d k => update d k s
  | .getRaw => (getRaw s).2
  | .setLinearRegression v1 r1 v2 r2 => setLinearRegression v1 r1 v2 r2 s
  | .getLinearRegression => (getLinearRegression s).2
  | .writeReg i v =>
    match i with
    | 0 => { s with dev := { s.dev with configReg0 := v % 256 } }
    | 1 => { s with dev := { s.dev with configReg1 := v % 256 } }
    | 2 => { s with dev := { s.dev with configReg2 := v % 256 } }
    | 3 => { s with dev := { s.dev with configReg3 := v % 256 } }

/-- The state after a sequence of calls, first call first. -/
def run (cs : List Call) (s : State) : State :=
  cs.foldl (fun acc c => step c acc) s

/-- A state is reachable when a sequence of calls leads to it from a
freshly constructed object, in some environment. -/
def Reachable (s : State) : Prop :=
  ∃ (spiHandler raw0 : Nat) (filtered0 : ℚ) (w : World) (cs : List Call),
    s = run cs { dev := ADS1220.ctor spiHandler raw0 filtered0, world := w }

/-! ## Sample inputs -/

/-- An environment whose device answers every exchange with the same byte. -/
def constWorld (b : Nat) : World := { replies := fun _ => b, pos := 0, trace := [] }

/-- An environment whose device answers with the bytes of a list, then zeros. -/
def listWorld (bs : List Nat) : World :=
  { replies := fun n => bs.getD n 0, pos := 0, trace := [] }

/-- A freshly constructed object in a given environment. -/
def fresh (w : World) : State := { dev := ADS1220.ctor 0 0 0, world := w }

/-! ## Auxiliary definitions used to state and prove the properties -/

/-- The defaults of init applied to a state: every register that holds the
unspecified flag gets its default, nothing else changes. -/
def withDefaults (q : State) : State :=
  { dev := { q.dev with
      configReg0 := if q.dev.configReg0 = 0 then 0x0E else q.dev.configReg0
      configReg1 := if q.dev.configReg1 = 0 then 0xD4 else q.dev.configReg1
      configReg2 := if q.dev.configReg2 = 0 then 0x88 else q.dev.configReg2
      configReg3 := if q.dev.configReg3 = 0 then 0x00 else q.dev.configReg3 }
    world := q.world }

/-- The state of init just before its write phase. -/
def initPrepared (s : State) : State :=
  withDefaults (delayms 10 (command ADS1220command.reset (slaveSelect (delayms 100 s))))

/-- An object whose registers hold the defaults 0x0E, 0xD4, 0x88, 0x00, in
an environment whose device answers with the given bytes. -/
def configured (bs : List Nat) : State :=
  { dev := { ADS1220.ctor 0 0 0 with
      configReg0 := 0x0E, configReg1 := 0xD4, configReg2 := 0x88, configReg3 := 0x00 }
    world := listWorld bs }

/-- The position of the first data exchange of update, relative to the
exchanges already made: the read-data command comes first unless the call
is made from the DRDY interrupt. -/
def dataOffset (DRDYdependence : Nat) : Nat :=
  if DRDYdependence ≠ ADS1220flag.onDRDY then 1 else 0

/-- An object in the ready state with the constructor's filter and regression
members, in an environment whose device answers with the given bytes. -/
def armed (bs : List Nat) : State :=
  { dev := { ADS1220.ctor 0 0 0 with _isReady := ADS1220flag.deviceReady }
    world := listWorld bs }

/-- The bytes sent on the bus, read off a log of events. -/
def sentBytes (es : List Event) : List Nat :=
  es.filterMap (fun e => match e with
    | Event.exchange b => some b
    | _ => none)

/-- The events a call added to the log. -/
def newEvents (before after : State) : List Event :=
  after.world.trace.drop before.world.trace.length

/-- The event of calling a chip-select callback, if one is installed. -/
def callEvents (fn : Option Nat) : List Event :=
  match fn with
  | none => []
  | some f => [Event.call f]

/-- The device answers according to a pattern: for every position of the
pattern that names a byte, the reply to the exchange that many steps ahead
is that byte; positions holding `none` are left free. -/
def answers (w : World) (pattern : List (Option Nat)) : Prop :=
  ∀ i, i < pattern.length →
    ((pattern.getD i none).all (fun b => w.replies (w.pos + i) % 256 == b)) = true

instance (w : World) (pattern : List (Option Nat)) : Decidable (answers w pattern) := by
  unfold answers
  infer_instance

/-- The replies of the end-to-end scenario: init (reset, write command, four
registers, read command, four readbacks), setGain (the same ten exchanges
without the reset), ready (start/sync), and two samples (read-data command
and three data bytes each).  The registers are read back as written and the
data bytes are 0x00, 0x03, 0xE8 and 0x0C, 0x4A, 0xE0. -/
def scenarioPattern : List (Option Nat) :=
  [none, none, none, none, none, none, none, some 0x0E, some 0xD4, some 0x88, some 0x00,
   none, none, none, none, none, none, some 0x0E, some 0xD4, some 0x88, some 0x00,
   none,
   none, some 0x00, some 0x03, some 0xE8,
   none, some 0x0C, some 0x4A, some 0xE0]

/-- An environment of the scenario: the device answers 0xAA to every command
and to the write phases, reads the registers back as written and delivers
the data bytes 0x00, 0x03, 0xE8 and 0x0C, 0x4A, 0xE0. -/
def scenarioWorld : World :=
  listWorld
    [0xAA, 0xAA, 0xAA, 0xAA, 0xAA, 0xAA, 0xAA, 0x0E, 0xD4, 0x88, 0x00,
     0xAA, 0xAA, 0xAA, 0xAA, 0xAA, 0xAA, 0x0E, 0xD4, 0x88, 0x00,
     0xAA, 0xAA, 0x00, 0x03, 0xE8, 0xAA, 0x0C, 0x4A, 0xE0]

/-! ## Frame lemmas -/

@[simp] theorem slaveSelect_dev (s : State) : (slaveSelect s).dev = s.dev := by
  unfold slaveSelect busyWait; split <;> rfl

@[simp] theorem slaveSelect_replies (s : State) :
    (slaveSelect s).world.replies = s.world.replies := by
  unfold slaveSelect busyWait; split <;> rfl

@[simp] theorem slaveSelect_pos (s : State) : (slaveSelect s).world.pos = s.world.pos := by
  unfold slaveSelect busyWait; split <;> rfl

@[simp] theorem slaveRelease_dev (s : State) : (slaveRelease s).dev = s.dev := by
  unfold slaveRelease busyWait; split <;> rfl

@[simp] theorem slaveRelease_replies (s : State) :
    (slaveRelease s).world.replies = s.world.replies := by
  unfold slaveRelease busyWait; split <;> rfl

@[simp] theorem slaveRelease_pos (s : State) : (slaveRelease s).world.pos = s.world.pos := by
  unfold slaveRelease busyWait; split <;> rfl

/-- The object after updateRegisters: the four registers hold the replies to
the seventh to tenth exchange, every other member is as before. -/
theorem updateRegisters_dev (s : State) :
    (updateRegisters s).dev =
      { s.dev with
        configReg0 := s.world.replies (s.world.pos + 6) % 256
        configReg1 := s.world.replies (s.world.pos + 7) % 256
        configReg2 := s.world.replies (s.world.pos + 8) % 256
        configReg3 := s.world.replies (s.world.pos + 9) % 256 } := by
  simp [updateRegisters, transceive8, storeRawByte, busyWait]

/-- The environment after updateRegisters: ten more exchanges are logged. -/
theorem updateRegisters_world (s : State) :
    (updateRegisters s).world =
      { replies := s.world.replies
        pos := s.world.pos + 10
        trace := s.world.trace ++
          [Event.exchange 0x43, Event.exchange (s.dev.configReg0 % 256),
           Event.exchange (s.dev.configReg1 % 256), Event.exchange (s.dev.configReg2 % 256),
           Event.exchange (s.dev.configReg3 % 256), Event.exchange 0x23,
           Event.exchange 0xFF, Event.exchange 0xFF, Event.exchange 0xFF,
           Event.exchange 0xFF] } := by
  simp [updateRegisters, transceive8, storeRawByte, busyWait]

theorem defaults_chain_eq (q : State) :
    (let s := q
     let s := if s.dev.configReg0 = ADS1220flag.unspecified
       then { s with dev := { s.dev with configReg0 := defaultReg0 } } else s
     let s := if s.dev.configReg1 = ADS1220flag.unspecified
       then { s with dev := { s.dev with configReg1 := defaultReg1 } } else s
     let s := if s.dev.configReg2 = ADS1220flag.unspecified
       then { s with dev := { s.dev with configReg2 := defaultReg2 } } else s
     let s := if s.dev.configReg3 = ADS1220flag.unspecified
       then { s with dev := { s.dev with configReg3 := defaultReg3 } } else s
     s) = withDefaults q := by
  obtain ⟨qd, qw⟩ := q
  simp only [ADS1220flag.unspecified, defaultReg0, defaultReg1, defaultReg2, defaultReg3,
    withDefaults]
  by_cases h0 : qd.configReg0 = 0 <;> by_cases h1 : qd.configReg1 = 0 <;>
    by_cases h2 : qd.configReg2 = 0 <;> by_cases h3 : qd.configReg3 = 0 <;>
    simp [h0, h1, h2, h3]

theorem init_eq (s : State) :
    init s =
      (let t := delayms 10 (slaveRelease (updateRegisters (initPrepared s)))
       let p := initPrepared s
       (if p.dev.configReg0 ≠ t.dev.configReg0 then 1
        else if p.dev.configReg1 ≠ t.dev.configReg1 then 2
        else if p.dev.configReg2 ≠ t.dev.configReg2 then 3
        else if p.dev.configReg3 ≠ t.dev.configReg3 then 4 else 0, t)) := by
  have h := defaults_chain_eq (delayms 10 (command ADS1220command.reset (slaveSelect (delayms 100 s))))
  unfold init initPrepared
  simp only at h ⊢
  rw [h]
  simp only [ADS1220flag.noErrors]
  split_ifs <;> rfl

theorem initPrepared_dev (s : State) :
    (initPrepared s).dev =
      { s.dev with
        configReg0 := if s.dev.configReg0 = 0 then 0x0E else s.dev.configReg0
        configReg1 := if s.dev.configReg1 = 0 then 0xD4 else s.dev.configReg1
        configReg2 := if s.dev.configReg2 = 0 then 0x88 else s.dev.configReg2
        configReg3 := if s.dev.configReg3 = 0 then 0x00 else s.dev.configReg3 } := by
  simp [initPrepared, withDefaults, delayms, command, transceive8]

theorem initPrepared_replies (s : State) :
    (initPrepared s).world.replies = s.world.replies := by
  simp [initPrepared, withDefaults, delayms, command, transceive8]

theorem initPrepared_pos (s : State) : (initPrepared s).world.pos = s.world.pos + 1 := by
  simp [initPrepared, withDefaults, delayms, command, transceive8]

/-- The object after init: the registers hold the four readback bytes. -/
theorem init_dev (s : State) :
    (init s).2.dev =
      { s.dev with
        configReg0 := s.world.replies (s.world.pos + 7) % 256
        configReg1 := s.world.replies (s.world.pos + 8) % 256
        configReg2 := s.world.replies (s.world.pos + 9) % 256
        configReg3 := s.world.replies (s.world.pos + 10) % 256 } := by
  rw [init_eq]
  simp [delayms, updateRegisters_dev, initPrepared_dev, initPrepared_replies, initPrepared_pos,
    Nat.add_assoc]

/-- The value init returns, as a chain of comparisons between the bytes
about to be written and the bytes read back. -/
theorem init_fst (s : State) :
    (init s).1 =
      (if (if s.dev.configReg0 = 0 then 0x0E else s.dev.configReg0)
            ≠ s.world.replies (s.world.pos + 7) % 256 then 1
       else if (if s.dev.configReg1 = 0 then 0xD4 else s.dev.configReg1)
            ≠ s.world.replies (s.world.pos + 8) % 256 then 2
       else if (if s.dev.configReg2 = 0 then 0x88 else s.dev.configReg2)
            ≠ s.world.replies (s.world.pos + 9) % 256 then 3
       else if (if s.dev.configReg3 = 0 then 0x00 else s.dev.configReg3)
            ≠ s.world.replies (s.world.pos + 10) % 256 then 4 else 0) := by
  rw [init_eq]
  simp [delayms, updateRegisters_dev, initPrepared_dev, initPrepared_replies, initPrepared_pos,
    Nat.add_assoc]

/-- C1: init returns 0 exactly when each of the four registers read back by
the write-then-verify round trip equals the value about to be written (the
caller's value, or the default where the register was unset); otherwise it
returns the 1-based index of the first register whose readback differs. -/
theorem init_return_code (s : State) :
    let w0 := if s.dev.configReg0 = 0x00 then 0x0E else s.dev.configReg0
    let w1 := if s.dev.configReg1 = 0x00 then 0xD4 else s.dev.configReg1
    let w2 := if s.dev.configReg2 = 0x00 then 0x88 else s.dev.configReg2
    let w3 := if s.dev.configReg3 = 0x00 then 0x00 else s.dev.configReg3
    let r0 := s.world.replies (s.world.pos + 7) % 256
    let r1 := s.world.replies (s.world.pos + 8) % 256
    let r2 := s.world.replies (s.world.pos + 9) % 256
    let r3 := s.world.replies (s.world.pos + 10) % 256
    ((init s).2.dev.configReg0 = r0 ∧ (init s).2.dev.configReg1 = r1 ∧
      (init s).2.dev.configReg2 = r2 ∧ (init s).2.dev.configReg3 = r3) ∧
    ((init s).1 = 0 ↔ r0 = w0 ∧ r1 = w1 ∧ r2 = w2 ∧ r3 = w3) ∧
    (r0 ≠ w0 → (init s).1 = 1) ∧
    (r0 = w0 → r1 ≠ w1 → (init s).1 = 2) ∧
    (r0 = w0 → r1 = w1 → r2 ≠ w2 → (init s).1 = 3) ∧
    (r0 = w0 → r1 = w1 → r2 = w2 → r3 ≠ w3 → (init s).1 = 4) := by
  intro w0 w1 w2 w3 r0 r1 r2 r3
  have hf : (init s).1 = (if w0 ≠ r0 then 1 else if w1 ≠ r1 then 2
      else if w2 ≠ r2 then 3 else if w3 ≠ r3 then 4 else 0) := init_fst s
  refine ⟨?_, ?_, ?_, ?_, ?_, ?_⟩
  · rw [init_dev]; exact ⟨rfl, rfl, rfl, rfl⟩
  · rw [hf]
    constructor
    · intro h
      split_ifs at h with h0 h1 h2 h3
      exact ⟨(not_not.mp h0).symm, (not_not.mp h1).symm, (not_not.mp h2).symm,
        (not_not.mp h3).symm⟩
    · rintro ⟨h0, h1, h2, h3⟩
      simp [h0, h1, h2, h3]
  · intro h0
    rw [hf, if_pos (fun h => h0 h.symm)]
  · intro h0 h1
    rw [hf, if_neg (fun h => h h0.symm), if_pos (fun h => h1 h.symm)]
  · intro h0 h1 h2
    rw [hf, if_neg (fun h => h h0.symm), if_neg (fun h => h h1.symm),
      if_pos (fun h => h2 h.symm)]
  · intro h0 h1 h2 h3
    rw [hf, if_neg (fun h => h h0.symm), if_neg (fun h => h h1.symm),
      if_neg (fun h => h h2.symm), if_pos (fun h => h3 h.symm)]

/-- Witness of C1: a device answering 0x0E to every exchange fails the
check of register 1, and init on a fresh object returns 2. -/
theorem init_return_code_witness : (init (fresh (constWorld 0x0E))).1 = 2 :=
  (init_return_code (fresh (constWorld 0x0E))).2.2.2.1 (by decide) (by decide)

/-! ## setGain and getGain -/

/-- Clearing bits [3:1] with the 32-bit mask and keeping one byte is the
same as masking the low byte with 0xF1. -/
theorem clear_gain_field (x : Nat) :
    (x &&& (0xFFFFFFFF - (0b111 <<< 1))) % 256 = (x % 256) &&& 0xF1 := by
  apply Nat.eq_of_testBit_eq
  intro i
  have h256 : (256 : Nat) = 2 ^ 8 := by norm_num
  rw [h256, Nat.testBit_mod_two_pow, Nat.testBit_and, Nat.testBit_and, Nat.testBit_mod_two_pow]
  by_cases hi : i < 8
  · have : Nat.testBit 4294967281 i = Nat.testBit 241 i := by
      interval_cases i <;> rfl
    simp [hi, this]
  · have : (0xF1).testBit i = false := by
      apply Nat.testBit_lt_two_pow
      calc 0xF1 < 2 ^ 8 := by norm_num
        _ ≤ 2 ^ i := Nat.pow_le_pow_right (by norm_num) (by omega)
    simp [hi, this]

set_option maxRecDepth 100000 in
/-- The byte setGain stores in register 0 before the round trip. -/
theorem gain_field_byte (x g : Nat) (hg : g < 8) :
    ((x &&& (0xFFFFFFFF - (0b111 <<< 1))) % 256 ||| (g <<< 1)) % 256
      = ((x % 256) &&& 0xF1) ||| (g <<< 1) := by
  rw [clear_gain_field]
  have hx : x % 256 < 256 := Nat.mod_lt _ (by norm_num)
  generalize x % 256 = b at hx
  revert g
  revert b
  decide

/-- The object after setGain: the registers hold the four readback bytes. -/
theorem setGain_dev (g : Nat) (s : State) :
    (setGain g s).2.dev =
      { s.dev with
        configReg0 := s.world.replies (s.world.pos + 6) % 256
        configReg1 := s.world.replies (s.world.pos + 7) % 256
        configReg2 := s.world.replies (s.world.pos + 8) % 256
        configReg3 := s.world.replies (s.world.pos + 9) % 256 } := by
  unfold setGain
  simp only []
  split_ifs <;> simp [updateRegisters_dev]

/-- The value setGain returns: the comparison of the register as it was
before the call with the byte read back. -/
theorem setGain_fst (g : Nat) (s : State) :
    (setGain g s).1 =
      if s.dev.configReg0 = s.world.replies (s.world.pos + 6) % 256 then 0 else 1 := by
  unfold setGain
  simp [updateRegisters_dev, ADS1220flag.noErrors, apply_ite Prod.fst]

/-- C2, evaluated at the failing input: register 0 holds 0x0E, the call is
setGain(gain001), and the device reads back exactly what was written
(0x00, 0xD4, 0x88, 0x00).  The byte written for register 0 is 0x00 and the
byte read back is 0x00, yet setGain returns 1.  On a device that ignores the
write and still answers 0x0E, setGain returns 0. -/
theorem setGain_compares_with_snapshot :
    ((setGain 0 (configured [0, 0, 0, 0, 0, 0, 0x00, 0xD4, 0x88, 0x00])).2.world.trace
        = [Event.exchange 0x43, Event.exchange 0x00, Event.exchange 0xD4, Event.exchange 0x88,
           Event.exchange 0x00, Event.exchange 0x23, Event.exchange 0xFF, Event.exchange 0xFF,
           Event.exchange 0xFF, Event.exchange 0xFF]) ∧
    (setGain 0 (configured [0, 0, 0, 0, 0, 0, 0x00, 0xD4, 0x88, 0x00])).2.dev.configReg0 = 0x00 ∧
    (setGain 0 (configured [0, 0, 0, 0, 0, 0, 0x00, 0xD4, 0x88, 0x00])).1 = 1 ∧
    (setGain 0 (configured [0, 0, 0, 0, 0, 0, 0x0E, 0xD4, 0x88, 0x00])).2.dev.configReg0 = 0x0E ∧
    (setGain 0 (configured [0, 0, 0, 0, 0, 0, 0x0E, 0xD4, 0x88, 0x00])).1 = 0 := by
  refine ⟨?_, ?_, ?_, ?_, ?_⟩ <;> rfl

set_option maxRecDepth 100000 in
/-- Reading the gain field back out of a byte whose bits [3:1] were set to g. -/
theorem gain_field_read (b g : Nat) (hb : b < 256) (hg : g < 8) :
    ((((b &&& 0xF1) ||| (g <<< 1)) >>> 1) &&& 0b00000111) % 256 = g := by
  revert g
  revert b
  decide

/-- C3: for every gain code g in 0..7 and every prior register-0 value, if
the device reads register 0 back exactly as setGain(g) wrote it (the prior
byte with bits [3:1] replaced by g), then getGain after setGain(g) returns
2^g; getGain itself leaves the object and the environment (bus position and
event log) as they were. -/
theorem getGain_after_setGain (g : Nat) (s : State) (hg : g < 8)
    (hback : s.world.replies (s.world.pos + 6) % 256
      = ((s.dev.configReg0 % 256) &&& 0xF1) ||| (g <<< 1)) :
    (getGain (setGain g s).2).1 = 2 ^ g ∧
    (getGain (setGain g s).2).2 = (setGain g s).2 ∧
    (∀ t : State, (getGain t).2 = t) := by
  refine ⟨?_, rfl, fun _ => rfl⟩
  have hlt : 2 ^ g < 256 := by
    interval_cases g <;> norm_num
  simp only [getGain, setGain_dev, hback]
  rw [gain_field_read _ g (Nat.mod_lt _ (by norm_num)) hg, Nat.mod_eq_of_lt hlt]

/-- Witness of C3: register 0 holds 0x0E, setGain(gain004) writes 0x04 and
the device reads 0x04 back; getGain then returns 4. -/
theorem getGain_after_setGain_witness :
    (getGain (setGain 2 (configured [0, 0, 0, 0, 0, 0, 0x04, 0xD4, 0x88, 0x00])).2).1 = 2 ^ 2 :=
  (getGain_after_setGain 2 (configured [0, 0, 0, 0, 0, 0, 0x04, 0xD4, 0x88, 0x00])
    (by decide) (by decide)).1

/-- C4: while the object is not in the ready state, update with any pair of
arguments returns the state it was given: the object (filtered value,
regression output and every other member) and the environment (no bus
exchange, no chip-select callback) are unchanged. -/
theorem update_halted_noop (d k : Nat) (s : State)
    (hhalt : s.dev._isReady ≠ ADS1220flag.deviceReady) :
    update d k s = s ∧
    (getRaw (update d k s)).1 = (getRaw s).1 ∧
    (getLinearRegression (update d k s)).1 = (getLinearRegression s).1 ∧
    (update d k s).world.pos = s.world.pos ∧
    (update d k s).world.trace = s.world.trace := by
  have h : update d k s = s := by
    unfold update
    rw [if_pos hhalt]
  rw [h]
  exact ⟨rfl, rfl, rfl, rfl, rfl⟩

/-- Witness of C4: a freshly constructed object is not ready, and update
leaves its event log empty. -/
theorem update_halted_noop_witness :
    (update 0 0 (fresh (constWorld 7))).world.trace = [] :=
  (update_halted_noop 0 0 (fresh (constWorld 7)) (by decide)).2.2.2.2

/-! ## update -/

/-- The raw sample assembled from three reply bytes (ADS1220.cpp line 204). -/
theorem assemble_bytes (b0 b1 b2 : Nat) (h0 : b0 < 256) (h1 : b1 < 256) (h2 : b2 < 256) :
    ((b0 <<< 16) ||| (b1 <<< 8) ||| (b2 <<< 0)) % 2 ^ 32 = 65536 * b0 + 256 * b1 + b2 := by
  have e1 : (b0 <<< 16) ||| (b1 <<< 8) = 2 ^ 8 * (2 ^ 8 * b0 + b1) := by
    have hb : b1 * 2 ^ 8 < 2 ^ 16 := by omega
    rw [Nat.shiftLeft_eq, Nat.shiftLeft_eq, Nat.mul_comm b0 (2 ^ 16),
      ← Nat.mul_add_lt_is_or hb b0]
    ring
  have e2 : (b0 <<< 16) ||| (b1 <<< 8) ||| (b2 <<< 0) = 2 ^ 8 * (2 ^ 8 * b0 + b1) + b2 := by
    have hb : b2 < 2 ^ 8 := by omega
    rw [e1, Nat.shiftLeft_zero, ← Nat.mul_add_lt_is_or hb]
  rw [e2]
  omega

/-- The object after update in the ready state. -/
theorem update_ready_dev (d k : Nat) (s : State)
    (hready : s.dev._isReady = ADS1220flag.deviceReady) :
    (update d k s).dev =
      (let raw : Nat := ((s.world.replies (s.world.pos + dataOffset d) % 256) <<< 16 |||
          (s.world.replies (s.world.pos + dataOffset d + 1) % 256) <<< 8 |||
          (s.world.replies (s.world.pos + dataOffset d + 2) % 256) <<< 0) % 2 ^ 32
       let filtered : ℚ := if s.dev._filterAlpha ≤ 0 then (raw : ℚ)
          else s.dev._filterAlpha * s.dev._filteredRaw + s.dev._filterAlphaCompl * (raw : ℚ)
       { s.dev with
         _raw := raw
         _filteredRaw := filtered
         _regressionResult := fadd (fmul s.dev._regressionCoeffA filtered)
            s.dev._regressionCoeffB }) := by
  unfold update
  rw [if_neg (not_not.mpr hready)]
  by_cases hd : d = ADS1220flag.onDRDY <;> by_cases hk : k = ADS1220flag.keepSSLo <;>
    by_cases ha : s.dev._filterAlpha ≤ 0 <;>
    simp [hd, hk, ha, dataOffset, transceive8, command, Nat.add_assoc]

/-- Conversion of a whole number below 2^32 back to uint32_t is exact. -/
theorem toUInt32_natCast (n : Nat) (hn : n < 2 ^ 32) : toUInt32 (n : ℚ) = n := by
  unfold toUInt32
  have : Rat.floor (n : ℚ) = (n : ℤ) := by
    rw [Rat.floor_def']
    simp
  rw [this, Int.toNat_natCast, Nat.mod_eq_of_lt hn]

/-- With alpha = 0 the filtered value after update is the assembled sample. -/
theorem update_filteredRaw_passthrough (d k : Nat) (s : State)
    (hready : s.dev._isReady = ADS1220flag.deviceReady)
    (halpha : s.dev._filterAlpha = 0) :
    (update d k s).dev._filteredRaw =
      ((65536 * (s.world.replies (s.world.pos + dataOffset d) % 256)
        + 256 * (s.world.replies (s.world.pos + dataOffset d + 1) % 256)
        + s.world.replies (s.world.pos + dataOffset d + 2) % 256 : Nat) : ℚ) := by
  rw [update_ready_dev d k s hready]
  simp only [halpha, le_refl, if_true]
  rw [assemble_bytes _ _ _ (Nat.mod_lt _ (by norm_num)) (Nat.mod_lt _ (by norm_num))
    (Nat.mod_lt _ (by norm_num))]

/-- C5: in the ready state with filter coefficient alpha = 0, for the three
reply bytes b0, b1, b2 of the three data exchanges of update (they follow
the reply to the read-data command when that command is sent), getRaw after
the update returns 65536*b0 + 256*b1 + b2, a value below 2^24. -/
theorem getRaw_after_update_passthrough (d k : Nat) (s : State)
    (hready : s.dev._isReady = ADS1220flag.deviceReady)
    (halpha : s.dev._filterAlpha = 0) :
    let b0 := s.world.replies (s.world.pos + dataOffset d) % 256
    let b1 := s.world.replies (s.world.pos + dataOffset d + 1) % 256
    let b2 := s.world.replies (s.world.pos + dataOffset d + 2) % 256
    (getRaw (update d k s)).1 = 65536 * b0 + 256 * b1 + b2 ∧
    (getRaw (update d k s)).1 < 2 ^ 24 ∧
    (update d k s).dev._filteredRaw = ((65536 * b0 + 256 * b1 + b2 : Nat) : ℚ) := by
  intro b0 b1 b2
  have h0 : b0 < 256 := Nat.mod_lt _ (by norm_num)
  have h1 : b1 < 256 := Nat.mod_lt _ (by norm_num)
  have h2 : b2 < 256 := Nat.mod_lt _ (by norm_num)
  have hf : (update d k s).dev._filteredRaw = ((65536 * b0 + 256 * b1 + b2 : Nat) : ℚ) :=
    update_filteredRaw_passthrough d k s hready halpha
  have hg : (getRaw (update d k s)).1 = 65536 * b0 + 256 * b1 + b2 := by
    unfold getRaw
    simp only [hf]
    exact toUInt32_natCast _ (by omega)
  exact ⟨hg, by omega, hf⟩

/-- Witness of C5: the reply to the read-data command is 0xAA and the data
bytes are 0x00, 0x03, 0xE8; getRaw returns 1000. -/
theorem getRaw_after_update_passthrough_witness :
    (getRaw (update 0 0 (armed [0xAA, 0x00, 0x03, 0xE8]))).1 = 1000 :=
  (getRaw_after_update_passthrough 0 0 (armed [0xAA, 0x00, 0x03, 0xE8]) rfl rfl).1

/-! ## The filter coefficient -/

/-- The filter members after update, ready or not. -/
theorem update_filter_members (d k : Nat) (s : State) :
    (update d k s).dev._filterAlpha = s.dev._filterAlpha ∧
    (update d k s).dev._filterAlphaCompl = s.dev._filterAlphaCompl := by
  by_cases hready : s.dev._isReady = ADS1220flag.deviceReady
  · rw [update_ready_dev d k s hready]
    exact ⟨rfl, rfl⟩
  · unfold update
    rw [if_pos hready]
    exact ⟨rfl, rfl⟩

/-- Only setFilterIntensity stores into the two filter members: every other
call leaves them as they were. -/
theorem step_filter_members (c : Call) (s : State)
    (hc : ∀ x, c ≠ Call.setFilterIntensity x) :
    (step c s).dev._filterAlpha = s.dev._filterAlpha ∧
    (step c s).dev._filterAlphaCompl = s.dev._filterAlphaCompl := by
  cases c with
  | appendHardwareControlSS lo hi =>
    simp only [step, appendHardwareControlSS]
    split_ifs <;> exact ⟨rfl, rfl⟩
  | init => simp [step, init_dev]
  | setGain g => simp [step, setGain_dev]
  | getGain => exact ⟨rfl, rfl⟩
  | setFilterIntensity x => exact absurd rfl (hc x)
  | slaveSelect => simp [step, slaveSelect_dev]
  | slaveRelease => simp [step, slaveRelease_dev]
  | command cmd => exact ⟨rfl, rfl⟩
  | updateRegisters => simp [step, updateRegisters_dev]
  | ready => simp [step, ready, command, transceive8, slaveSelect_dev]
  | halt => simp [step, halt, slaveRelease_dev]
  | update d k => exact update_filter_members d k s
  | getRaw => exact ⟨rfl, rfl⟩
  | setLinearRegression v1 r1 v2 r2 => exact ⟨rfl, rfl⟩
  | getLinearRegression => exact ⟨rfl, rfl⟩
  | writeReg i v =>
    simp only [step]
    split <;> exact ⟨rfl, rfl⟩

/-- The complement relation is kept by every call. -/
theorem step_keeps_complement (c : Call) (s : State)
    (h : s.dev._filterAlphaCompl = 1 - s.dev._filterAlpha) :
    (step c s).dev._filterAlphaCompl = 1 - (step c s).dev._filterAlpha := by
  by_cases hc : ∃ x, c = Call.setFilterIntensity x
  · obtain ⟨x, rfl⟩ := hc
    rfl
  · have hc' : ∀ x, c ≠ Call.setFilterIntensity x := fun x hx => hc ⟨x, hx⟩
    obtain ⟨h1, h2⟩ := step_filter_members c s hc'
    rw [h1, h2, h]

/-- The complement relation is kept by every sequence of calls. -/
theorem run_keeps_complement (cs : List Call) (s : State)
    (h : s.dev._filterAlphaCompl = 1 - s.dev._filterAlpha) :
    (run cs s).dev._filterAlphaCompl = 1 - (run cs s).dev._filterAlpha := by
  induction cs generalizing s with
  | nil => exact h
  | cons c cs ih => exact ih (step c s) (step_keeps_complement c s h)

/-- C6: setFilterIntensity(x) stores alpha = 0 for every x < 0 and
alpha = 0.999999 for every x >= 1, and in every case stores the complement
1 - alpha; with the constructor's values alpha = 0 and complement = 1 the
relation complement = 1 - alpha holds in every reachable state. -/
theorem setFilterIntensity_clamp_and_complement :
    (∀ (x : ℚ) (s : State), x < 0 → (setFilterIntensity x s).dev._filterAlpha = 0) ∧
    (∀ (x : ℚ) (s : State), 1 ≤ x →
      (setFilterIntensity x s).dev._filterAlpha = 999999 / 1000000) ∧
    (∀ (x : ℚ) (s : State), (setFilterIntensity x s).dev._filterAlphaCompl
      = 1 - (setFilterIntensity x s).dev._filterAlpha) ∧
    (∀ (spiHandler raw0 : Nat) (filtered0 : ℚ),
      (ADS1220.ctor spiHandler raw0 filtered0)._filterAlpha = 0 ∧
      (ADS1220.ctor spiHandler raw0 filtered0)._filterAlphaCompl = 1) ∧
    (∀ s : State, Reachable s → s.dev._filterAlphaCompl = 1 - s.dev._filterAlpha) := by
  refine ⟨?_, ?_, fun _ _ => rfl, fun _ _ _ => ⟨rfl, rfl⟩, ?_⟩
  · intro x s hx
    simp [setFilterIntensity, hx]
  · intro x s hx
    have hx0 : ¬ x < 0 := not_lt.mpr (le_trans zero_le_one hx)
    simp [setFilterIntensity, hx0, hx]
  · rintro s ⟨spi, raw0, f0, w, cs, rfl⟩
    apply run_keeps_complement
    simp [ADS1220.ctor]

/-- Witness of C6: an intensity of -3 stores alpha = 0, an intensity of 2
stores 0.999999, and after init, setFilterIntensity(1/2) and ready the
complement is 1 - alpha. -/
theorem setFilterIntensity_clamp_and_complement_witness :
    (setFilterIntensity (-3) (fresh (constWorld 0))).dev._filterAlpha = 0 ∧
    (setFilterIntensity 2 (fresh (constWorld 0))).dev._filterAlpha = 999999 / 1000000 ∧
    (run [Call.init, Call.setFilterIntensity (1 / 2), Call.ready]
        (fresh (constWorld 0))).dev._filterAlphaCompl
      = 1 - (run [Call.init, Call.setFilterIntensity (1 / 2), Call.ready]
        (fresh (constWorld 0))).dev._filterAlpha :=
  ⟨setFilterIntensity_clamp_and_complement.1 (-3) (fresh (constWorld 0)) (by norm_num),
   setFilterIntensity_clamp_and_complement.2.1 2 (fresh (constWorld 0)) (by norm_num),
   setFilterIntensity_clamp_and_complement.2.2.2.2 _
    ⟨0, 0, 0, constWorld 0, [Call.init, Call.setFilterIntensity (1 / 2), Call.ready], rfl⟩⟩

/-- C7 fails as stated: the intensity 0.9999995 is below 1, so it is stored
unchanged, and the stored alpha is above 0.999999. -/
theorem setFilterIntensity_above_cap :
    ¬ ((setFilterIntensity (9999995 / 10000000) (fresh (constWorld 0))).dev._filterAlpha
        ≤ 999999 / 1000000) := by
  norm_num [setFilterIntensity]

/-- C7 as amended: the stored alpha is 0 for x < 0, 0.999999 for x >= 1 and
x itself for 0 <= x < 1; it always lies in the half-open interval [0, 1). -/
theorem setFilterIntensity_range (x : ℚ) (s : State) :
    (setFilterIntensity x s).dev._filterAlpha
      = (if x < 0 then 0 else if 1 ≤ x then 999999 / 1000000 else x) ∧
    0 ≤ (setFilterIntensity x s).dev._filterAlpha ∧
    (setFilterIntensity x s).dev._filterAlpha < 1 := by
  have h : (setFilterIntensity x s).dev._filterAlpha
      = (if x < 0 then 0 else if 1 ≤ x then 999999 / 1000000 else x) := by
    by_cases h0 : x < 0
    · simp [setFilterIntensity, h0]
    · simp [setFilterIntensity, h0]
  refine ⟨h, ?_, ?_⟩
  · rw [h]; split_ifs with h0 h1
    · exact le_refl _
    · norm_num
    · exact not_lt.mp h0
  · rw [h]; split_ifs with h0 h1
    · norm_num
    · norm_num
    · exact not_le.mp h1

/-! ## The bytes on the bus -/

theorem slaveSelect_trace (s : State) :
    (slaveSelect s).world.trace = s.world.trace ++ callEvents s.dev._hwCtrSSLo := by
  unfold slaveSelect busyWait callEvents
  split <;> simp [*]

theorem slaveRelease_trace (s : State) :
    (slaveRelease s).world.trace = s.world.trace ++ callEvents s.dev._hwCtrSSHi := by
  unfold slaveRelease busyWait callEvents
  split <;> simp [*]

/-- The log after init. -/
theorem init_trace (s : State) :
    (init s).2.world.trace = s.world.trace ++
      ([Event.delay 100] ++ callEvents s.dev._hwCtrSSLo ++
       [Event.exchange 0x06, Event.delay 10, Event.exchange 0x43,
        Event.exchange ((if s.dev.configReg0 = 0 then 0x0E else s.dev.configReg0) % 256),
        Event.exchange ((if s.dev.configReg1 = 0 then 0xD4 else s.dev.configReg1) % 256),
        Event.exchange ((if s.dev.configReg2 = 0 then 0x88 else s.dev.configReg2) % 256),
        Event.exchange ((if s.dev.configReg3 = 0 then 0x00 else s.dev.configReg3) % 256),
        Event.exchange 0x23, Event.exchange 0xFF, Event.exchange 0xFF, Event.exchange 0xFF,
        Event.exchange 0xFF] ++ callEvents s.dev._hwCtrSSHi ++ [Event.delay 10]) := by
  rw [init_eq]
  simp only [delayms, slaveRelease_trace, slaveRelease_dev, updateRegisters_world,
    updateRegisters_dev, initPrepared_dev]
  simp [initPrepared, withDefaults, delayms, command, transceive8, slaveSelect_trace,
    ADS1220command.reset]

/-- C10: the four register bytes init transmits in its write phase (the
bytes that follow the reset command 0x06 and the write command 0x43) are,
for each index, the caller's value when it is not the unspecified flag 0x00
and otherwise the default 0x0E, 0xD4, 0x88, 0x00; a freshly constructed
object transmits 0x0E, 0xD4, 0x88, 0x00. -/
theorem init_transmits_defaults_where_unset (s : State)
    (h0 : s.dev.configReg0 < 256) (h1 : s.dev.configReg1 < 256)
    (h2 : s.dev.configReg2 < 256) (h3 : s.dev.configReg3 < 256) :
    sentBytes (newEvents s (init s).2) =
      [0x06, 0x43,
       if s.dev.configReg0 = 0x00 then 0x0E else s.dev.configReg0,
       if s.dev.configReg1 = 0x00 then 0xD4 else s.dev.configReg1,
       if s.dev.configReg2 = 0x00 then 0x88 else s.dev.configReg2,
       if s.dev.configReg3 = 0x00 then 0x00 else s.dev.configReg3,
       0x23, 0xFF, 0xFF, 0xFF, 0xFF] ∧
    (∀ (spiHandler raw0 : Nat) (filtered0 : ℚ) (w : World),
      sentBytes (newEvents { dev := ADS1220.ctor spiHandler raw0 filtered0, world := w }
        (init { dev := ADS1220.ctor spiHandler raw0 filtered0, world := w }).2)
        = [0x06, 0x43, 0x0E, 0xD4, 0x88, 0x00, 0x23, 0xFF, 0xFF, 0xFF, 0xFF]) := by
  have key : ∀ t : State, sentBytes (newEvents t (init t).2) =
      [0x06, 0x43,
       (if t.dev.configReg0 = 0 then 0x0E else t.dev.configReg0) % 256,
       (if t.dev.configReg1 = 0 then 0xD4 else t.dev.configReg1) % 256,
       (if t.dev.configReg2 = 0 then 0x88 else t.dev.configReg2) % 256,
       (if t.dev.configReg3 = 0 then 0x00 else t.dev.configReg3) % 256,
       0x23, 0xFF, 0xFF, 0xFF, 0xFF] := by
    intro t
    unfold newEvents
    rw [init_trace, List.drop_left]
    cases t.dev._hwCtrSSLo <;> cases t.dev._hwCtrSSHi <;> simp [sentBytes, callEvents]
  refine ⟨?_, ?_⟩
  · rw [key s]
    have e0 : (if s.dev.configReg0 = 0 then 0x0E else s.dev.configReg0) % 256
        = if s.dev.configReg0 = 0 then 0x0E else s.dev.configReg0 := by
      split_ifs <;> omega
    have e1 : (if s.dev.configReg1 = 0 then 0xD4 else s.dev.configReg1) % 256
        = if s.dev.configReg1 = 0 then 0xD4 else s.dev.configReg1 := by
      split_ifs <;> omega
    have e2 : (if s.dev.configReg2 = 0 then 0x88 else s.dev.configReg2) % 256
        = if s.dev.configReg2 = 0 then 0x88 else s.dev.configReg2 := by
      split_ifs <;> omega
    have e3 : (if s.dev.configReg3 = 0 then 0x00 else s.dev.configReg3) % 256
        = if s.dev.configReg3 = 0 then 0x00 else s.dev.configReg3 := by
      split_ifs <;> omega
    rw [e0, e1, e2, e3]
  · intro spi raw0 f0 w
    rw [key]
    rfl

/-- Witness of C10: with register 1 set to 0x04 by the caller and the other
registers unset, init transmits 0x0E, 0x04, 0x88, 0x00 after the two
command bytes. -/
theorem init_transmits_defaults_where_unset_witness :
    sentBytes (newEvents (step (Call.writeReg 1 0x04) (fresh (constWorld 0)))
      (init (step (Call.writeReg 1 0x04) (fresh (constWorld 0)))).2)
      = [0x06, 0x43, 0x0E, 0x04, 0x88, 0x00, 0x23, 0xFF, 0xFF, 0xFF, 0xFF] :=
  (init_transmits_defaults_where_unset (step (Call.writeReg 1 0x04) (fresh (constWorld 0)))
    (by decide) (by decide) (by decide) (by decide)).1

/-! ## updateRegisters and the chip-select callbacks -/

/-- C11: updateRegisters performs exactly ten byte exchanges, sending in
order 0x43, r0, r1, r2, r3, 0x23, 0xFF, 0xFF, 0xFF, 0xFF; afterwards
registers 0..3 hold the replies to the 7th to 10th exchange, every other
member (the raw sample included) is as before, and the replies to the first
six exchanges have no influence on the resulting state. -/
theorem updateRegisters_round_trip (s : State)
    (h0 : s.dev.configReg0 < 256) (h1 : s.dev.configReg1 < 256)
    (h2 : s.dev.configReg2 < 256) (h3 : s.dev.configReg3 < 256) :
    newEvents s (updateRegisters s) =
      [Event.exchange 0x43, Event.exchange s.dev.configReg0, Event.exchange s.dev.configReg1,
       Event.exchange s.dev.configReg2, Event.exchange s.dev.configReg3, Event.exchange 0x23,
       Event.exchange 0xFF, Event.exchange 0xFF, Event.exchange 0xFF, Event.exchange 0xFF] ∧
    (updateRegisters s).world.pos = s.world.pos + 10 ∧
    (updateRegisters s).dev =
      { s.dev with
        configReg0 := s.world.replies (s.world.pos + 6) % 256
        configReg1 := s.world.replies (s.world.pos + 7) % 256
        configReg2 := s.world.replies (s.world.pos + 8) % 256
        configReg3 := s.world.replies (s.world.pos + 9) % 256 } ∧
    (∀ replies : Nat → Nat,
      (∀ n, s.world.pos + 6 ≤ n → replies n = s.world.replies n) →
      (updateRegisters { s with world := { s.world with replies := replies } }).dev
          = (updateRegisters s).dev ∧
      (updateRegisters { s with world := { s.world with replies := replies } }).world.pos
          = (updateRegisters s).world.pos ∧
      (updateRegisters { s with world := { s.world with replies := replies } }).world.trace
          = (updateRegisters s).world.trace) := by
  refine ⟨?_, ?_, updateRegisters_dev s, ?_⟩
  · unfold newEvents
    rw [updateRegisters_world]
    simp only [List.drop_left]
    rw [Nat.mod_eq_of_lt h0, Nat.mod_eq_of_lt h1, Nat.mod_eq_of_lt h2, Nat.mod_eq_of_lt h3]
  · rw [updateRegisters_world]
  · intro replies hrep
    refine ⟨?_, ?_, ?_⟩
    · rw [updateRegisters_dev, updateRegisters_dev]
      simp only []
      rw [hrep _ (le_refl _), hrep _ (by omega), hrep _ (by omega), hrep _ (by omega)]
    · rw [updateRegisters_world, updateRegisters_world]
    · rw [updateRegisters_world, updateRegisters_world]

/-- Witness of C11: on an object holding the default registers, with a
device answering 1, 2, ..., 10, the registers end as 7, 8, 9, 10. -/
theorem updateRegisters_round_trip_witness :
    (updateRegisters (configured [1, 2, 3, 4, 5, 6, 7, 8, 9, 10])).dev
      = { (configured [1, 2, 3, 4, 5, 6, 7, 8, 9, 10]).dev with
          configReg0 := 7, configReg1 := 8, configReg2 := 9, configReg3 := 10 } :=
  (updateRegisters_round_trip (configured [1, 2, 3, 4, 5, 6, 7, 8, 9, 10])
    (by decide) (by decide) (by decide) (by decide)).2.2.1

/-- C12: appendHardwareControlSS(lo, hi) sets the select callback to lo
exactly when lo is non-null and the release callback to hi exactly when hi
is non-null; a null argument leaves the callback of that direction as it
was, and nothing else in the object or the environment changes. -/
theorem appendHardwareControlSS_per_direction (lo hi : Option Nat) (s : State) :
    appendHardwareControlSS lo hi s =
      { s with dev := { s.dev with
          _hwCtrSSLo := if lo ≠ none then lo else s.dev._hwCtrSSLo
          _hwCtrSSHi := if hi ≠ none then hi else s.dev._hwCtrSSHi } } ∧
    (∀ f : Nat, (appendHardwareControlSS (some f) none s).dev._hwCtrSSLo = some f ∧
      (appendHardwareControlSS (some f) none s).dev._hwCtrSSHi = s.dev._hwCtrSSHi) ∧
    (∀ f : Nat, (appendHardwareControlSS none (some f) s).dev._hwCtrSSHi = some f ∧
      (appendHardwareControlSS none (some f) s).dev._hwCtrSSLo = s.dev._hwCtrSSLo) ∧
    appendHardwareControlSS none none s = s := by
  refine ⟨?_, fun f => ⟨rfl, rfl⟩, fun f => ⟨rfl, rfl⟩, rfl⟩
  cases lo <;> cases hi <;> rfl

/-! ## The environment after each method -/

theorem slaveSelect_world (s : State) :
    (slaveSelect s).world =
      { s.world with trace := s.world.trace ++ callEvents s.dev._hwCtrSSLo } := by
  unfold slaveSelect busyWait callEvents
  split <;> simp [*]

theorem slaveRelease_world (s : State) :
    (slaveRelease s).world =
      { s.world with trace := s.world.trace ++ callEvents s.dev._hwCtrSSHi } := by
  unfold slaveRelease busyWait callEvents
  split <;> simp [*]

theorem init_pos (s : State) : (init s).2.world.pos = s.world.pos + 11 := by
  rw [init_eq]
  simp [delayms, updateRegisters_world, initPrepared_pos]

theorem init_replies (s : State) : (init s).2.world.replies = s.world.replies := by
  rw [init_eq]
  simp [delayms, updateRegisters_world, initPrepared_replies]

/-- The environment after setGain. -/
theorem setGain_world (g : Nat) (s : State) :
    (setGain g s).2.world =
      { replies := s.world.replies
        pos := s.world.pos + 10
        trace := s.world.trace ++
          (callEvents s.dev._hwCtrSSLo ++
           [Event.exchange 0x43,
            Event.exchange (((s.dev.configReg0 &&& (0xFFFFFFFF - (0b111 <<< 1))) % 256
              ||| (g <<< 1)) % 256),
            Event.exchange (s.dev.configReg1 % 256), Event.exchange (s.dev.configReg2 % 256),
            Event.exchange (s.dev.configReg3 % 256), Event.exchange 0x23,
            Event.exchange 0xFF, Event.exchange 0xFF, Event.exchange 0xFF,
            Event.exchange 0xFF] ++ callEvents s.dev._hwCtrSSHi) } := by
  have h : (setGain g s).2 = slaveRelease (updateRegisters (slaveSelect
      { s with dev := { s.dev with configReg0 :=
          ((s.dev.configReg0 &&& (0xFFFFFFFF - (0b111 <<< 1))) % 256 ||| (g <<< 1)) % 256 } })) := by
    unfold setGain
    simp only []
    split_ifs <;> rfl
  rw [h, slaveRelease_world, updateRegisters_world, slaveSelect_world]
  simp [updateRegisters_dev]

/-- The state after ready. -/
theorem ready_eq (s : State) :
    ready s =
      { dev := { s.dev with _isReady := ADS1220flag.deviceReady }
        world :=
          { replies := s.world.replies
            pos := s.world.pos + 1
            trace := s.world.trace ++ (callEvents s.dev._hwCtrSSLo ++ [Event.exchange 0x08]) } } := by
  unfold ready
  simp [command, transceive8, slaveSelect_world, ADS1220command.startSync]

/-- The environment after update in the ready state. -/
theorem update_ready_world (d k : Nat) (s : State)
    (hready : s.dev._isReady = ADS1220flag.deviceReady) :
    (update d k s).world =
      { replies := s.world.replies
        pos := s.world.pos + dataOffset d + 3
        trace := s.world.trace ++
          (callEvents s.dev._hwCtrSSLo ++
           (if d ≠ ADS1220flag.onDRDY then [Event.exchange 0x10] else []) ++
           [Event.exchange 0xFF, Event.exchange 0xFF, Event.exchange 0xFF] ++
           (if k ≠ ADS1220flag.keepSSLo then callEvents s.dev._hwCtrSSHi else [])) } := by
  unfold update
  rw [if_neg (not_not.mpr hready)]
  by_cases hd : d = ADS1220flag.onDRDY <;> by_cases hk : k = ADS1220flag.keepSSLo <;>
    by_cases ha : s.dev._filterAlpha ≤ 0 <;>
    simp [hd, hk, ha, dataOffset, transceive8, command, Nat.add_assoc, slaveSelect_world,
      slaveRelease_world, ADS1220command.rdata]

/-! ## The behaviour of setGain and update as coded -/

/-- C16: for every gain code g (in 0..7 or not), every prior register-0
value and every sequence of bus replies, setGain(g) returns 0 exactly when
the register-0 byte read back from the device equals the value register 0
held before the call (the snapshot taken before the gain field was
replaced), and returns 1 otherwise. -/
theorem setGain_checks_prewrite_snapshot (g : Nat) (s : State) :
    (setGain g s).2.dev.configReg0 = s.world.replies (s.world.pos + 6) % 256 ∧
    ((setGain g s).1 = 0 ↔ s.world.replies (s.world.pos + 6) % 256 = s.dev.configReg0) ∧
    (s.world.replies (s.world.pos + 6) % 256 ≠ s.dev.configReg0 → (setGain g s).1 = 1) := by
  refine ⟨?_, ?_, ?_⟩
  · rw [setGain_dev]
  · rw [setGain_fst]
    constructor
    · intro h
      split_ifs at h with h'
      exact h'.symm
    · intro h
      rw [if_pos h.symm]
  · intro h
    rw [setGain_fst, if_neg (fun h' => h h'.symm)]

/-- Witness of C16: register 0 holds 0x0E, setGain(gain001) writes 0x00; a
device that still answers 0x0E makes the call return 0. -/
theorem setGain_checks_prewrite_snapshot_witness :
    (setGain 0 (configured [0, 0, 0, 0, 0, 0, 0x0E, 0xD4, 0x88, 0x00])).1 = 0 :=
  ((setGain_checks_prewrite_snapshot 0
    (configured [0, 0, 0, 0, 0, 0, 0x0E, 0xD4, 0x88, 0x00])).2.1).mpr (by decide)

set_option maxRecDepth 100000 in
/-- The fields of a byte whose bits [3:1] were replaced by g. -/
theorem gain_field_frame (b g : Nat) (hb : b < 256) (hg : g < 8) :
    (((b &&& 0xF1) ||| (g <<< 1)) >>> 4 = b >>> 4) ∧
    (((b &&& 0xF1) ||| (g <<< 1)) &&& 1 = b &&& 1) ∧
    ((((b &&& 0xF1) ||| (g <<< 1)) >>> 1) &&& 0b111 = g) := by
  revert g
  revert b
  decide

/-- C19: for every gain code g in 0..7 and register contents r0..r3, the
register bytes setGain(g) transmits in its write phase (after the write
command 0x43) are (r0 AND 0xF1) OR (g << 1), r1, r2, r3; in the byte sent
for register 0 bits [7:4] and bit [0] are those of r0 and bits [3:1] are g. -/
theorem setGain_transmits (g : Nat) (s : State) (hg : g < 8)
    (h0 : s.dev.configReg0 < 256) (h1 : s.dev.configReg1 < 256)
    (h2 : s.dev.configReg2 < 256) (h3 : s.dev.configReg3 < 256) :
    sentBytes (newEvents s (setGain g s).2) =
      [0x43, (s.dev.configReg0 &&& 0xF1) ||| (g <<< 1), s.dev.configReg1, s.dev.configReg2,
       s.dev.configReg3, 0x23, 0xFF, 0xFF, 0xFF, 0xFF] ∧
    ((s.dev.configReg0 &&& 0xF1) ||| (g <<< 1)) >>> 4 = s.dev.configReg0 >>> 4 ∧
    ((s.dev.configReg0 &&& 0xF1) ||| (g <<< 1)) &&& 1 = s.dev.configReg0 &&& 1 ∧
    (((s.dev.configReg0 &&& 0xF1) ||| (g <<< 1)) >>> 1) &&& 0b111 = g := by
  obtain ⟨f1, f2, f3⟩ := gain_field_frame s.dev.configReg0 g h0 hg
  refine ⟨?_, f1, f2, f3⟩
  unfold newEvents
  rw [setGain_world]
  simp only [List.drop_left]
  rw [gain_field_byte _ g hg, Nat.mod_eq_of_lt h0, Nat.mod_eq_of_lt h1, Nat.mod_eq_of_lt h2,
    Nat.mod_eq_of_lt h3]
  cases s.dev._hwCtrSSLo <;> cases s.dev._hwCtrSSHi <;> simp [sentBytes, callEvents]

/-- Witness of C19: with the default registers, setGain(gain004) transmits
0x04, 0xD4, 0x88, 0x00 after the write command. -/
theorem setGain_transmits_witness :
    sentBytes (newEvents (configured []) (setGain 2 (configured [])).2) =
      [0x43, 0x04, 0xD4, 0x88, 0x00, 0x23, 0xFF, 0xFF, 0xFF, 0xFF] :=
  (setGain_transmits 2 (configured []) (by decide) (by decide) (by decide) (by decide)
    (by decide)).1

/-- C17: in the ready state, for all arguments d and k, update(d, k) first
makes its one slaveSelect call (the select callback, when installed, is the
first new event), then sends 0x10, 0xFF, 0xFF, 0xFF when d is not onDRDY
and 0xFF, 0xFF, 0xFF when d is onDRDY, and makes its one slaveRelease call
after the sample (the release callback, when installed, is the last new
event) exactly when k is not keepSSLo.  The filtered value and the
regression output are the same for any two calls on the same object whose
three data replies agree, whatever d and k are. -/
theorem update_bus_protocol (d k : Nat) (s : State)
    (hready : s.dev._isReady = ADS1220flag.deviceReady) :
    newEvents s (update d k s) =
      callEvents s.dev._hwCtrSSLo ++
      (if d ≠ 0x0D then [Event.exchange 0x10] else []) ++
      [Event.exchange 0xFF, Event.exchange 0xFF, Event.exchange 0xFF] ++
      (if k ≠ 0x55 then callEvents s.dev._hwCtrSSHi else []) ∧
    sentBytes (newEvents s (update d k s))
      = (if d ≠ 0x0D then [0x10, 0xFF, 0xFF, 0xFF] else [0xFF, 0xFF, 0xFF]) ∧
    (∀ (d' k' : Nat) (s' : State), s'.dev = s.dev →
      (∀ i, i < 3 → s'.world.replies (s'.world.pos + dataOffset d' + i) % 256
        = s.world.replies (s.world.pos + dataOffset d + i) % 256) →
      (update d' k' s').dev._filteredRaw = (update d k s).dev._filteredRaw ∧
      (update d' k' s').dev._regressionResult = (update d k s).dev._regressionResult) := by
  have hev : newEvents s (update d k s) =
      callEvents s.dev._hwCtrSSLo ++
      (if d ≠ 0x0D then [Event.exchange 0x10] else []) ++
      [Event.exchange 0xFF, Event.exchange 0xFF, Event.exchange 0xFF] ++
      (if k ≠ 0x55 then callEvents s.dev._hwCtrSSHi else []) := by
    unfold newEvents
    rw [update_ready_world d k s hready]
    simp only [List.drop_left]
    rfl
  refine ⟨hev, ?_, ?_⟩
  · rw [hev]
    cases s.dev._hwCtrSSLo <;> cases s.dev._hwCtrSSHi <;> by_cases hd : d = 0x0D <;>
      by_cases hk : k = 0x55 <;> simp [sentBytes, callEvents, hd, hk]
  · intro d' k' s' hdev hrep
    have hready' : s'.dev._isReady = ADS1220flag.deviceReady := by rw [hdev]; exact hready
    have r0 := hrep 0 (by norm_num)
    have r1 := hrep 1 (by norm_num)
    have r2 := hrep 2 (by norm_num)
    simp only [Nat.add_zero] at r0
    rw [update_ready_dev d' k' s' hready', update_ready_dev d k s hready]
    simp only [hdev, r0, r1, r2, and_self]

/-- Witness of C17: an object in the ready state with both chip-select
callbacks installed (at the addresses 1 and 2) selects, sends the read-data
command and three 0xFF bytes, and releases. -/
theorem update_bus_protocol_witness :
    newEvents
      (appendHardwareControlSS (some 1) (some 2) (armed [0xAA, 0x00, 0x03, 0xE8]))
      (update 0 0 (appendHardwareControlSS (some 1) (some 2) (armed [0xAA, 0x00, 0x03, 0xE8])))
      = [Event.call 1, Event.exchange 0x10, Event.exchange 0xFF, Event.exchange 0xFF,
         Event.exchange 0xFF, Event.call 2] :=
  (update_bus_protocol 0 0
    (appendHardwareControlSS (some 1) (some 2) (armed [0xAA, 0x00, 0x03, 0xE8])) rfl).1

/-- C18: in exact arithmetic, for every reachable object in the ready state
with coefficient alpha, previous filtered value f, regression coefficients
A and B, and assembled raw sample r: after update the filtered value is r
when alpha <= 0 and alpha*f + (1 - alpha)*r when alpha > 0, the regression
output is A*f' + B for the new filtered value f', and with A = 0, B = 0 the
regression output is 0. -/
theorem update_filter_and_regression (d k : Nat) (s : State) (A B : ℚ)
    (hreach : Reachable s)
    (hready : s.dev._isReady = ADS1220flag.deviceReady)
    (hA : s.dev._regressionCoeffA = some A) (hB : s.dev._regressionCoeffB = some B) :
    let r : Nat := 65536 * (s.world.replies (s.world.pos + dataOffset d) % 256)
      + 256 * (s.world.replies (s.world.pos + dataOffset d + 1) % 256)
      + s.world.replies (s.world.pos + dataOffset d + 2) % 256
    (update d k s).dev._raw = r ∧
    (s.dev._filterAlpha ≤ 0 → (update d k s).dev._filteredRaw = (r : ℚ)) ∧
    (0 < s.dev._filterAlpha → (update d k s).dev._filteredRaw
      = s.dev._filterAlpha * s.dev._filteredRaw + (1 - s.dev._filterAlpha) * (r : ℚ)) ∧
    (getLinearRegression (update d k s)).1
      = some (A * (update d k s).dev._filteredRaw + B) ∧
    (A = 0 → B = 0 → (getLinearRegression (update d k s)).1 = some 0) := by
  intro r
  have hinv : s.dev._filterAlphaCompl = 1 - s.dev._filterAlpha := by
    obtain ⟨spi, raw0, f0, w, cs, rfl⟩ := hreach
    apply run_keeps_complement
    simp [ADS1220.ctor]
  have hr : ((s.world.replies (s.world.pos + dataOffset d) % 256) <<< 16 |||
      (s.world.replies (s.world.pos + dataOffset d + 1) % 256) <<< 8 |||
      (s.world.replies (s.world.pos + dataOffset d + 2) % 256) <<< 0) % 2 ^ 32 = r :=
    assemble_bytes _ _ _ (Nat.mod_lt _ (by norm_num)) (Nat.mod_lt _ (by norm_num))
      (Nat.mod_lt _ (by norm_num))
  have hdev := update_ready_dev d k s hready
  simp only [hr] at hdev
  have hres : (getLinearRegression (update d k s)).1
      = some (A * (update d k s).dev._filteredRaw + B) := by
    simp only [getLinearRegression]
    rw [hdev]
    simp only [hA, hB, fadd, fmul, Option.map_some']
  refine ⟨?_, ?_, ?_, hres, ?_⟩
  · rw [hdev]
  · intro ha
    rw [hdev]
    simp only [if_pos ha]
  · intro ha
    rw [hdev]
    simp only [if_neg (not_le.mpr ha), hinv]
  · intro hA0 hB0
    rw [hres, hA0, hB0]
    simp

/-- Witness of C18: a fresh object after setFilterIntensity(1/2) and ready,
on a device whose data bytes are 0x00, 0x03, 0xE8 (the first two replies
answer the start/sync and read-data commands); the regression output after
the sample is 0. -/
theorem update_filter_and_regression_witness :
    (getLinearRegression (update 0 0 (run [Call.setFilterIntensity (1 / 2), Call.ready]
      (fresh (listWorld [0xAA, 0xAA, 0x00, 0x03, 0xE8]))))).1 = some 0 :=
  (update_filter_and_regression 0 0
    (run [Call.setFilterIntensity (1 / 2), Call.ready]
      (fresh (listWorld [0xAA, 0xAA, 0x00, 0x03, 0xE8]))) 0 0
    ⟨0, 0, 0, listWorld [0xAA, 0xAA, 0x00, 0x03, 0xE8],
      [Call.setFilterIntensity (1 / 2), Call.ready], rfl⟩
    rfl rfl rfl).2.2.2.2 rfl rfl

/-! ## Readiness -/

/-- Readiness after one call: ready sets the flag deviceReady, halt sets the
flag unspecified, every other call leaves the member as it was. -/
theorem step_isReady (c : Call) (s : State) :
    (step c s).dev._isReady =
      (match c with
       | Call.ready => ADS1220flag.deviceReady
       | Call.halt => ADS1220flag.unspecified
       | _ => s.dev._isReady) := by
  cases c with
  | appendHardwareControlSS lo hi =>
    simp only [step, appendHardwareControlSS]
    split_ifs <;> rfl
  | init => simp [step, init_dev]
  | setGain g => simp [step, setGain_dev]
  | getGain => rfl
  | setFilterIntensity x => rfl
  | slaveSelect => simp [step, slaveSelect_dev]
  | slaveRelease => simp [step, slaveRelease_dev]
  | command cmd => rfl
  | updateRegisters => simp [step, updateRegisters_dev]
  | ready => simp [step, ready_eq]
  | halt => simp [step, halt, slaveRelease_dev]
  | update d k =>
    simp only [step]
    by_cases hready : s.dev._isReady = ADS1220flag.deviceReady
    · rw [update_ready_dev d k s hready]
    · unfold update
      rw [if_pos hready]
  | getRaw => rfl
  | setLinearRegression v1 r1 v2 r2 => rfl
  | getLinearRegression => rfl
  | writeReg i v =>
    simp only [step]
    split <;> rfl

theorem unspecified_ne_deviceReady :
    ADS1220flag.unspecified ≠ ADS1220flag.deviceReady := by decide

theorem step_isReady_other (c : Call) (s : State) (hr : c ≠ Call.ready) (hh : c ≠ Call.halt) :
    (step c s).dev._isReady = s.dev._isReady := by
  rw [step_isReady]
  cases c <;> first | rfl | exact absurd rfl hr | exact absurd rfl hh

theorem run_append (a b : List Call) (s : State) : run (a ++ b) s = run b (run a s) := by
  unfold run
  rw [List.foldl_append]

theorem run_cons (c : Call) (cs : List Call) (s : State) :
    run (c :: cs) s = run cs (step c s) := rfl

/-- Without a halt call, a ready object stays ready. -/
theorem run_keeps_ready (cs : List Call) (s : State) (hno : Call.halt ∉ cs)
    (h : s.dev._isReady = ADS1220flag.deviceReady) :
    (run cs s).dev._isReady = ADS1220flag.deviceReady := by
  induction cs generalizing s with
  | nil => exact h
  | cons c cs ih =>
    rw [run_cons]
    apply ih _ (fun hm => hno (List.mem_cons_of_mem _ hm))
    by_cases hr : c = Call.ready
    · subst hr; rw [step_isReady]
    · have hh : c ≠ Call.halt := fun hc => hno (hc ▸ List.mem_cons_self _ _)
      rw [step_isReady_other c s hr hh, h]

/-- Without a ready call, an object that is not ready stays so. -/
theorem run_keeps_halted (cs : List Call) (s : State) (hno : Call.ready ∉ cs)
    (h : s.dev._isReady ≠ ADS1220flag.deviceReady) :
    (run cs s).dev._isReady ≠ ADS1220flag.deviceReady := by
  induction cs generalizing s with
  | nil => exact h
  | cons c cs ih =>
    rw [run_cons]
    apply ih _ (fun hm => hno (List.mem_cons_of_mem _ hm))
    have hr : c ≠ Call.ready := fun hc => hno (hc ▸ List.mem_cons_self _ _)
    by_cases hh : c = Call.halt
    · subst hh; rw [step_isReady]; exact unspecified_ne_deviceReady
    · rw [step_isReady_other c s hr hh]; exact h

/-- A ready object at the end of a sequence: either the sequence has a ready
call with no later halt call, or the object was ready at the start and the
sequence has no halt call. -/
theorem run_ready_split (cs : List Call) (s : State)
    (h : (run cs s).dev._isReady = ADS1220flag.deviceReady) :
    (∃ pre post, cs = pre ++ Call.ready :: post ∧ Call.halt ∉ post) ∨
    (s.dev._isReady = ADS1220flag.deviceReady ∧ Call.halt ∉ cs) := by
  induction cs generalizing s with
  | nil => exact Or.inr ⟨h, List.not_mem_nil _⟩
  | cons c cs ih =>
    rw [run_cons] at h
    rcases ih (step c s) h with ⟨pre, post, hsplit, hno⟩ | ⟨hstep, hno⟩
    · exact Or.inl ⟨c :: pre, post, by rw [hsplit]; rfl, hno⟩
    · by_cases hr : c = Call.ready
      · subst hr
        exact Or.inl ⟨[], cs, rfl, hno⟩
      · by_cases hh : c = Call.halt
        · subst hh
          rw [step_isReady] at hstep
          exact absurd hstep unspecified_ne_deviceReady
        · rw [step_isReady_other c s hr hh] at hstep
          refine Or.inr ⟨hstep, ?_⟩
          intro hm
          rcases List.mem_cons.mp hm with hc | hc
          · exact hh hc.symm
          · exact hno hc

/-- C14: a freshly constructed object is halted; ready always leaves it
ready and halt always leaves it halted; no other call changes readiness.
Hence after any sequence of calls on a fresh object it is ready exactly when
the sequence has a ready call with no later halt call, and after a halt call
with no later ready call every update is a no-op. -/
theorem readiness_state_machine :
    (∀ (spiHandler raw0 : Nat) (filtered0 : ℚ),
      (ADS1220.ctor spiHandler raw0 filtered0)._isReady ≠ ADS1220flag.deviceReady) ∧
    (∀ s : State, (ready s).dev._isReady = ADS1220flag.deviceReady) ∧
    (∀ s : State, (halt s).dev._isReady = ADS1220flag.unspecified ∧
      (halt s).dev._isReady ≠ ADS1220flag.deviceReady) ∧
    (∀ (c : Call) (s : State), c ≠ Call.ready → c ≠ Call.halt →
      (step c s).dev._isReady = s.dev._isReady) ∧
    (∀ (cs : List Call) (spiHandler raw0 : Nat) (filtered0 : ℚ) (w : World),
      (run cs { dev := ADS1220.ctor spiHandler raw0 filtered0, world := w }).dev._isReady
          = ADS1220flag.deviceReady
        ↔ ∃ pre post, cs = pre ++ Call.ready :: post ∧ Call.halt ∉ post) ∧
    (∀ (pre post : List Call) (s : State) (d k : Nat), Call.ready ∉ post →
      update d k (run (pre ++ Call.halt :: post) s) = run (pre ++ Call.halt :: post) s) := by
  refine ⟨fun _ _ _ => unspecified_ne_deviceReady, fun s => by rw [ready_eq], fun s => ?_,
    fun c s hr hh => step_isReady_other c s hr hh, ?_, ?_⟩
  · have h : (halt s).dev._isReady = ADS1220flag.unspecified := by
      simp [halt, slaveRelease_dev]
    exact ⟨h, by rw [h]; decide⟩
  · intro cs spi raw0 f0 w
    constructor
    · intro h
      rcases run_ready_split cs _ h with hsplit | ⟨hfresh, _⟩
      · exact hsplit
      · exact absurd hfresh unspecified_ne_deviceReady
    · rintro ⟨pre, post, rfl, hno⟩
      rw [run_append, run_cons]
      apply run_keeps_ready post _ hno
      rw [step_isReady]
  · intro pre post s d k hno
    have hhalted : (run (pre ++ Call.halt :: post) s).dev._isReady
        ≠ ADS1220flag.deviceReady := by
      rw [run_append, run_cons]
      apply run_keeps_halted post _ hno
      rw [step_isReady]
      exact unspecified_ne_deviceReady
    unfold update
    rw [if_pos hhalted]

/-- Witness of C14: after init, ready, an update and setGain the object is
ready; after ready, halt and setGain an update changes nothing. -/
theorem readiness_state_machine_witness :
    (run [Call.init, Call.ready, Call.update 0 0, Call.setGain 7]
      { dev := ADS1220.ctor 0 0 0, world := constWorld 0 }).dev._isReady
        = ADS1220flag.deviceReady ∧
    update 0 0 (run ([Call.ready] ++ Call.halt :: [Call.setGain 7]) (fresh (constWorld 0)))
      = run ([Call.ready] ++ Call.halt :: [Call.setGain 7]) (fresh (constWorld 0)) :=
  ⟨(readiness_state_machine.2.2.2.2.1 [Call.init, Call.ready, Call.update 0 0, Call.setGain 7]
      0 0 0 (constWorld 0)).mpr
      ⟨[Call.init], [Call.update 0 0, Call.setGain 7], rfl, by simp⟩,
   readiness_state_machine.2.2.2.2.2 [Call.ready] [Call.setGain 7] (fresh (constWorld 0)) 0 0
    (by simp)⟩

/-- C15 fails as stated: on an object armed by ready, with a device that
answers 0 to every exchange, init returns the error code 1 and the object
is still in the ready state. -/
theorem init_failure_keeps_ready :
    (init (run [Call.ready] (fresh (constWorld 0)))).1 = 1 ∧
    (init (run [Call.ready] (fresh (constWorld 0)))).2.dev._isReady
      = ADS1220flag.deviceReady := by
  constructor
  · rw [init_fst]; rfl
  · rw [init_dev]; rfl

/-- C15 as amended: init leaves the readiness state as it was, whatever it
returns; so a failed init on an object that was halted (a freshly
constructed one in particular) leaves it halted, and a failed init on an
object that was ready leaves it ready. -/
theorem init_keeps_readiness (s : State) :
    (init s).2.dev._isReady = s.dev._isReady ∧
    ((init s).1 ≠ 0 → s.dev._isReady ≠ ADS1220flag.deviceReady →
      (init s).2.dev._isReady ≠ ADS1220flag.deviceReady) ∧
    (∀ (spiHandler raw0 : Nat) (filtered0 : ℚ) (w : World),
      (init { dev := ADS1220.ctor spiHandler raw0 filtered0, world := w }).2.dev._isReady
        ≠ ADS1220flag.deviceReady) := by
  have h : ∀ t : State, (init t).2.dev._isReady = t.dev._isReady := by
    intro t
    rw [init_dev]
  refine ⟨h s, ?_, ?_⟩
  · intro _ hhalt
    rw [h]
    exact hhalt
  · intro spi raw0 f0 w
    rw [h]
    exact unspecified_ne_deviceReady

/-- Witness of the amended C15: on a fresh object with a device answering 0
to every exchange, init fails and the object is still halted. -/
theorem init_keeps_readiness_witness :
    (init (fresh (constWorld 0))).2.dev._isReady ≠ ADS1220flag.deviceReady :=
  (init_keeps_readiness (fresh (constWorld 0))).2.1
    (by rw [init_fst]; decide) unspecified_ne_deviceReady

/-! ## The unspecified flag and register 0 -/

/-- The bytes init sends. -/
theorem init_sentBytes (s : State) :
    sentBytes (newEvents s (init s).2) =
      [0x06, 0x43,
       (if s.dev.configReg0 = 0 then 0x0E else s.dev.configReg0) % 256,
       (if s.dev.configReg1 = 0 then 0xD4 else s.dev.configReg1) % 256,
       (if s.dev.configReg2 = 0 then 0x88 else s.dev.configReg2) % 256,
       (if s.dev.configReg3 = 0 then 0x00 else s.dev.configReg3) % 256,
       0x23, 0xFF, 0xFF, 0xFF, 0xFF] := by
  unfold newEvents
  rw [init_trace, List.drop_left]
  cases s.dev._hwCtrSSLo <;> cases s.dev._hwCtrSSHi <;> simp [sentBytes, callEvents]

/-- C20: whenever register 0 holds 0x00 when init starts, init transmits
0x0E for register 0, and on a device that reads the register back as
written getGain after that init returns 128 and not 1; a non-zero register-0
byte v is transmitted unchanged.  Register 0 = 0x00 is reached by
setGain(gain001) on the default register 0 = 0x0E with a device that reads
back what is written, after which getGain returns 1. -/
theorem init_overrides_zero_register0 (s : State) :
    (s.dev.configReg0 = 0x00 →
      (sentBytes (newEvents s (init s).2))[2]? = some 0x0E ∧
      (s.world.replies (s.world.pos + 7) % 256 = 0x0E →
        (getGain (init s).2).1 = 128 ∧ (getGain (init s).2).1 ≠ 1)) ∧
    (s.dev.configReg0 ≠ 0x00 → s.dev.configReg0 < 256 →
      (sentBytes (newEvents s (init s).2))[2]? = some s.dev.configReg0) ∧
    (s.dev.configReg0 = 0x0E → s.world.replies (s.world.pos + 6) % 256 = 0x00 →
      (sentBytes (newEvents s (setGain 0 s).2))[1]? = some 0x00 ∧
      (setGain 0 s).2.dev.configReg0 = 0x00 ∧
      (getGain (setGain 0 s).2).1 = 1) := by
  refine ⟨?_, ?_, ?_⟩
  · intro h0
    refine ⟨?_, ?_⟩
    · rw [init_sentBytes, h0]
      rfl
    · intro hback
      have hg : (getGain (init s).2).1 = 128 := by
        simp only [getGain, init_dev, hback]
        rfl
      exact ⟨hg, by rw [hg]; decide⟩
  · intro hne hlt
    rw [init_sentBytes, if_neg hne, Nat.mod_eq_of_lt hlt]
    rfl
  · intro h0 hback
    refine ⟨?_, ?_, ?_⟩
    · unfold newEvents
      rw [setGain_world, h0]
      simp only [List.drop_left]
      have hw : ((14 &&& (0xFFFFFFFF - (0b111 <<< 1))) % 256 ||| (0 <<< 1)) % 256 = 0 := by
        decide
      rw [hw]
      cases s.dev._hwCtrSSLo <;> cases s.dev._hwCtrSSHi <;> simp [sentBytes, callEvents]
    · rw [setGain_dev]
      exact hback
    · simp only [getGain, setGain_dev, hback]
      rfl

/-- Witness of C20: a fresh object is initialised and set to gain 1 on a
device that reads back what is written, so register 0 holds 0x00; the next
init transmits 0x0E for register 0. -/
theorem init_overrides_zero_register0_witness :
    (sentBytes (newEvents
      (run [Call.init, Call.setGain 0] (fresh (listWorld
        [0, 0, 0, 0, 0, 0, 0, 0x0E, 0xD4, 0x88, 0x00, 0, 0, 0, 0, 0, 0, 0x00, 0xD4, 0x88, 0x00,
         0, 0, 0, 0, 0, 0, 0, 0x0E, 0xD4, 0x88, 0x00])))
      (init (run [Call.init, Call.setGain 0] (fresh (listWorld
        [0, 0, 0, 0, 0, 0, 0, 0x0E, 0xD4, 0x88, 0x00, 0, 0, 0, 0, 0, 0, 0x00, 0xD4, 0x88, 0x00,
         0, 0, 0, 0, 0, 0, 0, 0x0E, 0xD4, 0x88, 0x00])))).2))[2]? = some 0x0E :=
  ((init_overrides_zero_register0 (run [Call.init, Call.setGain 0] (fresh (listWorld
        [0, 0, 0, 0, 0, 0, 0, 0x0E, 0xD4, 0x88, 0x00, 0, 0, 0, 0, 0, 0, 0x00, 0xD4, 0x88, 0x00,
         0, 0, 0, 0, 0, 0, 0, 0x0E, 0xD4, 0x88, 0x00])))).1 rfl).1

/-! ## Binary32 rounding -/

/-- A rational within one half of an integer rounds to that integer. -/
theorem roundNearestEven_eq (q : ℚ) (m : ℤ) (h : |q - (m : ℚ)| < 1 / 2) :
    roundNearestEven q = m := by
  rw [abs_lt] at h
  obtain ⟨h1, h2⟩ := h
  unfold roundNearestEven
  have hfl : Rat.floor q = ⌊q⌋ := rfl
  simp only [hfl]
  by_cases hm : (m : ℚ) ≤ q
  · have hf : ⌊q⌋ = m := by
      rw [Int.floor_eq_iff]
      constructor
      · exact hm
      · linarith
    rw [hf, if_pos (by linarith)]
  · push_neg at hm
    have hf : ⌊q⌋ = m - 1 := by
      rw [Int.floor_eq_iff]
      push_cast
      constructor
      · linarith
      · linarith
    rw [hf]
    push_cast
    rw [if_neg (by linarith), if_pos (by linarith)]
    ring

/-- The binary32 rounding of a value in the normal range whose scaled value is nearer to m than to any other integer. -/
theorem f32round_eq (x : ℚ) (e m : ℤ) (he : (2 : ℚ) ^ e ≤ |x|) (he' : |x| < (2 : ℚ) ^ (e + 1))
    (hmin : -126 ≤ e) (hm : |x / (2 : ℚ) ^ (e - 23) - (m : ℚ)| < 1 / 2) :
    f32round x = (m : ℚ) * (2 : ℚ) ^ (e - 23) := by
  have hpos : 0 < |x| := lt_of_lt_of_le (zpow_pos (by norm_num) e) he
  have hx : x ≠ 0 := abs_pos.mp hpos
  have hlog : Int.log 2 |x| = e := by
    have h1 : e ≤ Int.log 2 |x| := (Int.zpow_le_iff_le_log (by norm_num) hpos).mp (by exact_mod_cast he)
    have h2 : Int.log 2 |x| < e + 1 := (Int.lt_zpow_iff_log_lt (by norm_num) hpos).mp (by exact_mod_cast he')
    omega
  unfold f32round
  rw [if_neg hx]
  simp only [hlog, max_eq_left hmin]
  rw [roundNearestEven_eq _ m hm]

/-- The rounding of a positive value, by bounds without absolute values. -/
theorem f32round_pos (x : ℚ) (e m : ℤ) (he : (2 : ℚ) ^ e ≤ x) (he' : x < (2 : ℚ) ^ (e + 1))
    (hmin : -126 ≤ e) (hlo : (m : ℚ) - 1 / 2 < x / (2 : ℚ) ^ (e - 23))
    (hhi : x / (2 : ℚ) ^ (e - 23) < (m : ℚ) + 1 / 2) :
    f32round x = (m : ℚ) * (2 : ℚ) ^ (e - 23) := by
  have hpos : 0 < x := lt_of_lt_of_le (zpow_pos (by norm_num) e) he
  apply f32round_eq x e m
  · rw [abs_of_pos hpos]; exact he
  · rw [abs_of_pos hpos]; exact he'
  · exact hmin
  · rw [abs_lt]; constructor <;> linarith

/-- The rounding of a negative value, by bounds without absolute values. -/
theorem f32round_neg (x : ℚ) (e m : ℤ) (he : (2 : ℚ) ^ e ≤ -x) (he' : -x < (2 : ℚ) ^ (e + 1))
    (hmin : -126 ≤ e) (hlo : (m : ℚ) - 1 / 2 < x / (2 : ℚ) ^ (e - 23))
    (hhi : x / (2 : ℚ) ^ (e - 23) < (m : ℚ) + 1 / 2) :
    f32round x = (m : ℚ) * (2 : ℚ) ^ (e - 23) := by
  have hneg : x < 0 := by
    have := lt_of_lt_of_le (zpow_pos (by norm_num : (0 : ℚ) < 2) e) he
    linarith
  apply f32round_eq x e m
  · rw [abs_of_neg hneg]; exact he
  · rw [abs_of_neg hneg]; exact he'
  · exact hmin
  · rw [abs_lt]; constructor <;> linarith

/-- A tie between an even integer and its successor rounds to the even one. -/
theorem roundNearestEven_tie_even (q : ℚ) (m : ℤ) (h : q = (m : ℚ) + 1 / 2)
    (heven : m % 2 = 0) : roundNearestEven q = m := by
  unfold roundNearestEven
  have hfl : Rat.floor q = ⌊q⌋ := rfl
  have hf : ⌊q⌋ = m := by
    rw [Int.floor_eq_iff]
    constructor <;> linarith
  simp only [hfl, hf]
  rw [if_neg (by linarith), if_neg (by linarith), if_pos heven]

/-- The rounding of a positive value that lies half-way above an even significand. -/
theorem f32round_tie_pos (x : ℚ) (e m : ℤ) (he : (2 : ℚ) ^ e ≤ x) (he' : x < (2 : ℚ) ^ (e + 1))
    (hmin : -126 ≤ e) (htie : x / (2 : ℚ) ^ (e - 23) = (m : ℚ) + 1 / 2) (heven : m % 2 = 0) :
    f32round x = (m : ℚ) * (2 : ℚ) ^ (e - 23) := by
  have hpos : 0 < x := lt_of_lt_of_le (zpow_pos (by norm_num) e) he
  have hx : x ≠ 0 := ne_of_gt hpos
  have hlog : Int.log 2 |x| = e := by
    rw [abs_of_pos hpos]
    have h1 : e ≤ Int.log 2 x :=
      (Int.zpow_le_iff_le_log (by norm_num) hpos).mp (by exact_mod_cast he)
    have h2 : Int.log 2 x < e + 1 :=
      (Int.lt_zpow_iff_log_lt (by norm_num) hpos).mp (by exact_mod_cast he')
    omega
  unfold f32round
  rw [if_neg hx]
  simp only [hlog, max_eq_left hmin]
  rw [roundNearestEven_tie_even _ m htie heven]

/-- Integers of magnitude below 2^24 are binary32 values. -/
theorem f32round_intCast (n : ℤ) (h : |n| < 2 ^ 24) : f32round (n : ℚ) = (n : ℚ) := by
  by_cases hn : n = 0
  · subst hn
    simp [f32round]
  have hpos : 0 < |(n : ℚ)| := abs_pos.mpr (by exact_mod_cast hn)
  have hone : (1 : ℚ) ≤ |(n : ℚ)| := by
    have : (1 : ℤ) ≤ |n| := Int.one_le_abs hn
    exact_mod_cast this
  have hlt : |(n : ℚ)| < (2 : ℚ) ^ (24 : ℤ) := by
    have h24 : ((|n| : ℤ) : ℚ) < ((2 ^ 24 : ℤ) : ℚ) := by exact_mod_cast h
    have h24' : |(n : ℚ)| < 16777216 := by simpa using h24
    exact lt_of_lt_of_le h24' (by norm_num)
  have he0 : 0 ≤ Int.log 2 |(n : ℚ)| :=
    (Int.zpow_le_iff_le_log (by norm_num) hpos).mp (by simpa using hone)
  have he1 : Int.log 2 |(n : ℚ)| < 24 :=
    (Int.lt_zpow_iff_log_lt (by norm_num) hpos).mp (by exact_mod_cast hlt)
  obtain ⟨k, hk⟩ : ∃ k : ℕ, (k : ℤ) = 23 - Int.log 2 |(n : ℚ)| :=
    ⟨(23 - Int.log 2 |(n : ℚ)|).toNat, Int.toNat_of_nonneg (by omega)⟩
  have hpow : (2 : ℚ) ^ (Int.log 2 |(n : ℚ)| - 23) = ((2 : ℚ) ^ k)⁻¹ := by
    have : Int.log 2 |(n : ℚ)| - 23 = -(k : ℤ) := by omega
    rw [this, zpow_neg, zpow_natCast]
  have h2k : (0 : ℚ) < (2 : ℚ) ^ k := pow_pos (by norm_num) k
  have key := f32round_eq (n : ℚ) (Int.log 2 |(n : ℚ)|) (n * 2 ^ k)
    (by exact_mod_cast Int.zpow_log_le_self (by norm_num) hpos)
    (by exact_mod_cast Int.lt_zpow_succ_log_self (by norm_num) |(n : ℚ)|)
    (by omega)
    (by
      rw [hpow]
      push_cast
      rw [div_inv_eq_mul, sub_self, abs_zero]
      norm_num)
  rw [key, hpow]
  push_cast
  field_simp

/-- Natural numbers below 2^24 are binary32 values. -/
theorem f32round_natCast (n : ℕ) (h : n < 2 ^ 24) : f32round (n : ℚ) = (n : ℚ) := by
  have := f32round_intCast (n : ℤ) (by
    rw [abs_of_nonneg (by positivity)]
    exact_mod_cast h)
  simpa using this

/-- Rounding an integer of magnitude below 2^24 gives the integer. -/
theorem f32_intCast (n : ℤ) (h : |n| < 2 ^ 24) : f32 (n : ℚ) = some (n : ℚ) := by
  unfold f32
  rw [f32round_intCast n h, if_pos]
  have h24 : |(n : ℚ)| < 16777216 := by
    have : ((|n| : ℤ) : ℚ) < ((2 ^ 24 : ℤ) : ℚ) := by exact_mod_cast h
    simpa using this
  exact lt_of_lt_of_le h24 (by norm_num)

/-- The conversion of a count below 2^24 is exact. -/
theorem f32ofUInt32_exact (n : ℕ) (h : n < 2 ^ 24) : f32ofUInt32 n = (n : ℚ) := by
  unfold f32ofUInt32
  rw [Nat.mod_eq_of_lt (lt_of_lt_of_le h (by norm_num))]
  exact f32round_natCast n h

/-- Zero is a binary32 value. -/
theorem f32round_zero : f32round 0 = 0 := by
  simp [f32round]

/-- A rounding whose result is below 2^128 in magnitude is finite. -/
theorem f32_of_round (x y : ℚ) (h : f32round x = y) (hb : |y| < (2 : ℚ) ^ (128 : ℕ)) :
    f32 x = some y := by
  unfold f32
  rw [h, if_pos hb]

/-! ## update in binary32 -/

theorem slaveRelease_eq (s : State) :
    slaveRelease s =
      { dev := s.dev
        world := { s.world with trace := s.world.trace ++ callEvents s.dev._hwCtrSSHi } } := by
  unfold slaveRelease busyWait callEvents
  split <;> simp [*]

/-- The result of updateBinary32 in the ready state: the bus traffic and the
raw sample are those of update, the filtered value and the regression
output are rounded. -/
theorem updateBinary32_ready (d k : Nat) (s : State)
    (hready : s.dev._isReady = ADS1220flag.deviceReady) :
    updateBinary32 d k s =
      (let raw : Nat := ((s.world.replies (s.world.pos + dataOffset d) % 256) <<< 16 |||
          (s.world.replies (s.world.pos + dataOffset d + 1) % 256) <<< 8 |||
          (s.world.replies (s.world.pos + dataOffset d + 2) % 256) <<< 0) % 2 ^ 32
       let filtered : FVal := if s.dev._filterAlpha ≤ 0 then some (f32ofUInt32 raw)
          else f32add (f32 (s.dev._filterAlpha * s.dev._filteredRaw))
            (f32 (s.dev._filterAlphaCompl * f32ofUInt32 raw))
       filtered.map (fun f =>
         { dev := { s.dev with
             _raw := raw
             _filteredRaw := f
             _regressionResult := f32add (f32mul s.dev._regressionCoeffA (some f))
                s.dev._regressionCoeffB }
           world := (update d k s).world })) := by
  rw [update_ready_world d k s hready]
  unfold updateBinary32
  rw [if_neg (not_not.mpr hready)]
  by_cases hd : d = ADS1220flag.onDRDY <;> by_cases hk : k = ADS1220flag.keepSSLo <;>
    by_cases ha : s.dev._filterAlpha ≤ 0 <;>
    simp [hd, hk, ha, dataOffset, transceive8, command, Nat.add_assoc, slaveSelect_world,
      slaveRelease_eq, ADS1220command.rdata] <;>
    split <;> simp_all

/-- With alpha <= 0, updateBinary32 is defined: its filtered value is the
assembled sample, exactly, and its regression output is the rounded
product and sum. -/
theorem updateBinary32_passthrough (d k : Nat) (s : State)
    (hready : s.dev._isReady = ADS1220flag.deviceReady)
    (halpha : s.dev._filterAlpha ≤ 0) :
    updateBinary32 d k s = some
      { dev := { (update d k s).dev with
          _regressionResult :=
            f32add (f32mul s.dev._regressionCoeffA (some (update d k s).dev._filteredRaw))
              s.dev._regressionCoeffB }
        world := (update d k s).world } := by
  have h0 : s.world.replies (s.world.pos + dataOffset d) % 256 < 256 :=
    Nat.mod_lt _ (by norm_num)
  have h1 : s.world.replies (s.world.pos + dataOffset d + 1) % 256 < 256 :=
    Nat.mod_lt _ (by norm_num)
  have h2 : s.world.replies (s.world.pos + dataOffset d + 2) % 256 < 256 :=
    Nat.mod_lt _ (by norm_num)
  have hlt : ((s.world.replies (s.world.pos + dataOffset d) % 256) <<< 16 |||
      (s.world.replies (s.world.pos + dataOffset d + 1) % 256) <<< 8 |||
      (s.world.replies (s.world.pos + dataOffset d + 2) % 256) <<< 0) % 2 ^ 32 < 2 ^ 24 := by
    rw [assemble_bytes _ _ _ h0 h1 h2]
    omega
  have hraw := f32ofUInt32_exact _ hlt
  rw [updateBinary32_ready d k s hready, update_ready_dev d k s hready]
  simp only [if_pos halpha, hraw, Option.map_some']

/-- The slope stored for the calibration points (0, 1000) and (50, 805600):
the binary32 value 0x38825299. -/
theorem scenario_slope :
    f32div (f32 (50 - 0)) (f32round (f32ofUInt32 805600 - f32ofUInt32 1000))
      = some (8540825 / 2 ^ 37) := by
  rw [f32ofUInt32_exact 805600 (by norm_num), f32ofUInt32_exact 1000 (by norm_num)]
  have hdiv : f32round (((805600 : ℕ) : ℚ) - ((1000 : ℕ) : ℚ)) = 804600 := by
    have h := f32round_intCast 804600 (by norm_num)
    norm_num at h ⊢
    exact h
  have hnum : f32 (50 - 0) = some 50 := by
    have h := f32_intCast 50 (by norm_num)
    norm_num at h ⊢
    exact h
  rw [hdiv, hnum]
  simp only [f32div]
  rw [if_neg (by norm_num)]
  apply f32_of_round
  · rw [f32round_pos (50 / 804600) (-14) 8540825 (by norm_num) (by norm_num) (by norm_num)
      (by norm_num) (by norm_num)]
    norm_num
  · rw [abs_of_pos (by norm_num)]
    norm_num

/-- The intercept stored for the calibration points (0, 1000) and
(50, 805600): the binary32 value 0xBD7E8953. -/
theorem scenario_intercept :
    f32sub (some 0) (f32mul (some (8540825 / 2 ^ 37)) (some (f32ofUInt32 1000)))
      = some (-(16681299 / 2 ^ 28)) := by
  rw [f32ofUInt32_exact 1000 (by norm_num)]
  have hmul : f32 (8540825 / 2 ^ 37 * ((1000 : ℕ) : ℚ)) = some (16681299 / 2 ^ 28) := by
    apply f32_of_round
    · rw [f32round_pos _ (-5) 16681299 (by norm_num) (by norm_num) (by norm_num)
        (by norm_num) (by norm_num)]
      norm_num
    · rw [abs_of_pos (by norm_num)]
      norm_num
  simp only [f32mul, f32sub, hmul]
  apply f32_of_round
  · rw [f32round_neg _ (-5) (-16681299) (by norm_num) (by norm_num) (by norm_num)
      (by norm_num) (by norm_num)]
    norm_num
  · rw [abs_of_neg (by norm_num)]
    norm_num

/-- The regression output for the stored coefficients at the filtered value
1000: exactly 0. -/
theorem scenario_output_low :
    f32add (f32mul (some (8540825 / 2 ^ 37)) (some ((1000 : ℕ) : ℚ)))
      (some (-(16681299 / 2 ^ 28))) = some 0 := by
  have hmul : f32 (8540825 / 2 ^ 37 * ((1000 : ℕ) : ℚ)) = some (16681299 / 2 ^ 28) := by
    apply f32_of_round
    · rw [f32round_pos _ (-5) 16681299 (by norm_num) (by norm_num) (by norm_num)
        (by norm_num) (by norm_num)]
      norm_num
    · rw [abs_of_pos (by norm_num)]
      norm_num
  simp only [f32mul, f32add, hmul]
  apply f32_of_round
  · rw [add_neg_cancel, f32round_zero]
  · norm_num

/-- The regression output for the stored coefficients at the filtered value
805600: the binary32 value 0x42480001, which is 50 + 2^-18. -/
theorem scenario_output_high :
    f32add (f32mul (some (8540825 / 2 ^ 37)) (some ((805600 : ℕ) : ℚ)))
      (some (-(16681299 / 2 ^ 28))) = some (50 + 1 / 2 ^ 18) := by
  have hmul : f32 (8540825 / 2 ^ 37 * ((805600 : ℕ) : ℚ)) = some (13123491 / 2 ^ 18) := by
    apply f32_of_round
    · rw [f32round_pos _ 5 13123491 (by norm_num) (by norm_num) (by norm_num)
        (by norm_num) (by norm_num)]
      norm_num
    · rw [abs_of_pos (by norm_num)]
      norm_num
  simp only [f32mul, f32add, hmul]
  apply f32_of_round
  · rw [f32round_pos _ 5 13107201 (by norm_num) (by norm_num) (by norm_num)
      (by norm_num) (by norm_num)]
    norm_num
  · rw [abs_of_pos (by norm_num)]
    norm_num

/-! ## The regression in binary32 -/

/-- The state after setLinearRegression: only the two coefficients change. -/
theorem setLinearRegression_eq (v1 v2 : ℚ) (r1 r2 : Nat) (s : State) :
    setLinearRegression v1 r1 v2 r2 s =
      { s with dev := { s.dev with
          _regressionCoeffA :=
            f32div (f32 (v2 - v1)) (f32round (f32ofUInt32 r2 - f32ofUInt32 r1))
          _regressionCoeffB := f32sub (some v1)
            (f32mul (f32div (f32 (v2 - v1)) (f32round (f32ofUInt32 r2 - f32ofUInt32 r1)))
              (some (f32ofUInt32 r1))) } } := rfl

/-- The state after setLinearRegression(0, 1000, 50, 805600). -/
theorem setLinearRegression_scenario (s : State) :
    setLinearRegression 0 1000 50 805600 s =
      { s with dev := { s.dev with
          _regressionCoeffA := some (8540825 / 2 ^ 37)
          _regressionCoeffB := some (-(16681299 / 2 ^ 28)) } } := by
  rw [setLinearRegression_eq, scenario_slope, scenario_intercept]

/-- The state after setLinearRegression for counts below 2^24: the
conversions are exact and so is their difference. -/
theorem setLinearRegression_small_counts (v1 v2 : ℚ) (r1 r2 : Nat) (s : State)
    (h1 : r1 < 2 ^ 24) (h2 : r2 < 2 ^ 24) :
    setLinearRegression v1 r1 v2 r2 s =
      { s with dev := { s.dev with
          _regressionCoeffA := f32div (f32 (v2 - v1)) ((r2 : ℚ) - (r1 : ℚ))
          _regressionCoeffB := f32sub (some v1)
            (f32mul (f32div (f32 (v2 - v1)) ((r2 : ℚ) - (r1 : ℚ))) (some (r1 : ℚ))) } } := by
  have hd : f32round ((r2 : ℚ) - (r1 : ℚ)) = (r2 : ℚ) - (r1 : ℚ) := by
    have h := f32round_intCast ((r2 : ℤ) - (r1 : ℤ)) (by
      rw [abs_lt]
      constructor <;> omega)
    push_cast at h
    exact h
  rw [setLinearRegression_eq, f32ofUInt32_exact r1 h1, f32ofUInt32_exact r2 h2, hd]

/-- The regression output of a defined updateBinary32 in the ready state. -/
theorem updateBinary32_regressionResult (d k : Nat) (s t : State)
    (hready : s.dev._isReady = ADS1220flag.deviceReady)
    (h : updateBinary32 d k s = some t) :
    t.dev._regressionResult
      = f32add (f32mul s.dev._regressionCoeffA (some t.dev._filteredRaw))
          s.dev._regressionCoeffB := by
  rw [updateBinary32_ready d k s hready] at h
  simp only [Option.map_eq_some'] at h
  obtain ⟨f, _, rfl⟩ := h
  rfl

/-- C8 fails as stated: after setLinearRegression(0, 1000, 50, 805600) the
stored slope is the binary32 value 0x38825299, not 50/804600, and a sample
in the ready state with filtered value 805600 makes getLinearRegression
return 50 + 2^-18 (0x42480001), not 50.  With the distinct counts 2^24 and
2^24 + 1 both conversions give 2^24 and the stored slope is not finite. -/
theorem setLinearRegression_rounds :
    (setLinearRegression 0 1000 50 805600
        (armed [0xAA, 0x0C, 0x4A, 0xE0])).dev._regressionCoeffA = some (8540825 / 2 ^ 37) ∧
    (8540825 / 2 ^ 37 : ℚ) ≠ (50 - 0) / (805600 - 1000) ∧
    (updateBinary32 0 0 (setLinearRegression 0 1000 50 805600
        (armed [0xAA, 0x0C, 0x4A, 0xE0]))).map
      (fun t => (t.dev._filteredRaw, (getLinearRegression t).1))
      = some (805600, some (50 + 1 / 2 ^ 18)) ∧
    (50 + 1 / 2 ^ 18 : ℚ) ≠ 50 ∧
    (setLinearRegression 0 16777216 1 16777217
        (armed [0xAA, 0x0C, 0x4A, 0xE0])).dev._regressionCoeffA = none := by
  refine ⟨?_, by norm_num, ?_, by norm_num, ?_⟩
  · rw [setLinearRegression_scenario]
  · rw [setLinearRegression_scenario]
    have hf := update_filteredRaw_passthrough 0 0
      { armed [0xAA, 0x0C, 0x4A, 0xE0] with dev := { (armed [0xAA, 0x0C, 0x4A, 0xE0]).dev with
          _regressionCoeffA := some (8540825 / 2 ^ 37)
          _regressionCoeffB := some (-(16681299 / 2 ^ 28)) } } rfl rfl
    have hv : (65536 * ((armed [0xAA, 0x0C, 0x4A, 0xE0]).world.replies
          ((armed [0xAA, 0x0C, 0x4A, 0xE0]).world.pos + dataOffset 0) % 256)
        + 256 * ((armed [0xAA, 0x0C, 0x4A, 0xE0]).world.replies
          ((armed [0xAA, 0x0C, 0x4A, 0xE0]).world.pos + dataOffset 0 + 1) % 256)
        + (armed [0xAA, 0x0C, 0x4A, 0xE0]).world.replies
          ((armed [0xAA, 0x0C, 0x4A, 0xE0]).world.pos + dataOffset 0 + 2) % 256 : ℕ)
        = 805600 := by decide
    simp only [hv] at hf
    rw [updateBinary32_passthrough 0 0 _ rfl (le_of_eq rfl)]
    simp only [Option.map_some', getLinearRegression, hf, scenario_output_high]
    norm_num
  · rw [setLinearRegression_eq]
    have e1 : f32ofUInt32 16777216 = 16777216 := by
      unfold f32ofUInt32
      rw [f32round_pos _ 24 8388608 (by norm_num) (by norm_num) (by norm_num) (by norm_num)
        (by norm_num)]
      norm_num
    have e2 : f32ofUInt32 16777217 = 16777216 := by
      unfold f32ofUInt32
      rw [f32round_tie_pos _ 24 8388608 (by norm_num) (by norm_num) (by norm_num) (by norm_num)
        (by norm_num)]
      norm_num
    simp only [e1, e2, sub_self, f32round_zero, f32div]
    split <;> simp

/-- C8 as amended: in binary32, for all values v1, v2 and raw counts
r1 != r2 below 2^24, the divisor r2 - r1 is exact and non-zero and
setLinearRegression stores the roundings A = fl(fl(v2 - v1)/(r2 - r1)) and
B = fl(v1 - fl(A*r1)); an update in the ready state whose resulting
filtered value is f makes getLinearRegression return fl(fl(A*f) + B), and
with alpha <= 0 the update is defined. -/
theorem setLinearRegression_binary32 (v1 v2 : ℚ) (r1 r2 : Nat) (s : State)
    (hne : r1 ≠ r2) (h1 : r1 < 2 ^ 24) (h2 : r2 < 2 ^ 24) :
    (r2 : ℚ) - (r1 : ℚ) ≠ 0 ∧
    (setLinearRegression v1 r1 v2 r2 s).dev._regressionCoeffA
      = f32div (f32 (v2 - v1)) ((r2 : ℚ) - (r1 : ℚ)) ∧
    (∀ n : ℚ, f32 (v2 - v1) = some n →
      (setLinearRegression v1 r1 v2 r2 s).dev._regressionCoeffA
        = f32 (n / ((r2 : ℚ) - (r1 : ℚ)))) ∧
    (setLinearRegression v1 r1 v2 r2 s).dev._regressionCoeffB
      = f32sub (some v1)
          (f32mul (setLinearRegression v1 r1 v2 r2 s).dev._regressionCoeffA (some (r1 : ℚ))) ∧
    (∀ (d k : Nat) (t : State), s.dev._isReady = ADS1220flag.deviceReady →
      updateBinary32 d k (setLinearRegression v1 r1 v2 r2 s) = some t →
      (getLinearRegression t).1
        = f32add (f32mul (setLinearRegression v1 r1 v2 r2 s).dev._regressionCoeffA
            (some t.dev._filteredRaw))
          (setLinearRegression v1 r1 v2 r2 s).dev._regressionCoeffB) ∧
    (∀ d k : Nat, s.dev._isReady = ADS1220flag.deviceReady → s.dev._filterAlpha ≤ 0 →
      ∃ t, updateBinary32 d k (setLinearRegression v1 r1 v2 r2 s) = some t) := by
  have hq : (r2 : ℚ) - (r1 : ℚ) ≠ 0 := by
    intro h
    exact hne (Nat.cast_injective (sub_eq_zero.mp h)).symm
  have hs := setLinearRegression_small_counts v1 v2 r1 r2 s h1 h2
  have hA : (setLinearRegression v1 r1 v2 r2 s).dev._regressionCoeffA
      = f32div (f32 (v2 - v1)) ((r2 : ℚ) - (r1 : ℚ)) := by
    rw [hs]
  refine ⟨hq, hA, ?_, ?_, ?_, ?_⟩
  · intro n hn
    rw [hA, hn]
    simp only [f32div]
    rw [if_neg hq]
  · rw [hA, hs]
  · intro d k t hready ht
    have hready' : (setLinearRegression v1 r1 v2 r2 s).dev._isReady
        = ADS1220flag.deviceReady := hready
    exact updateBinary32_regressionResult d k _ t hready' ht
  · intro d k hready halpha
    have hready' : (setLinearRegression v1 r1 v2 r2 s).dev._isReady
        = ADS1220flag.deviceReady := hready
    have halpha' : (setLinearRegression v1 r1 v2 r2 s).dev._filterAlpha ≤ 0 := halpha
    exact ⟨_, updateBinary32_passthrough d k _ hready' halpha'⟩

/-- Witness of the amended C8: the calibration points (0, 1000) and
(50, 805600) on an armed object; the stored slope is the rounding of
50/804600. -/
theorem setLinearRegression_binary32_witness :
    (setLinearRegression 0 1000 50 805600
        (armed [0xAA, 0x0C, 0x4A, 0xE0])).dev._regressionCoeffA
      = f32 (50 / (((805600 : ℕ) : ℚ) - ((1000 : ℕ) : ℚ))) :=
  (setLinearRegression_binary32 0 50 1000 805600 (armed [0xAA, 0x0C, 0x4A, 0xE0])
    (by decide) (by norm_num) (by norm_num)).2.2.1 50
    (by
      have h := f32_intCast 50 (by norm_num)
      norm_num at h ⊢
      exact h)

/-! ## Calibration with identical counts -/

/-- With identical counts the divisor is zero and both coefficients are
stored as not finite. -/
theorem setLinearRegression_same_count (v1 v2 : ℚ) (r : Nat) (s : State) :
    setLinearRegression v1 r v2 r s
      = { s with dev := { s.dev with _regressionCoeffA := none, _regressionCoeffB := none } } := by
  have hA : f32div (f32 (v2 - v1)) (f32round (f32ofUInt32 r - f32ofUInt32 r)) = none := by
    rw [sub_self, f32round_zero]
    unfold f32div
    split <;> simp
  rw [setLinearRegression_eq, hA]
  rfl

/-- Only setLinearRegression stores into the two coefficients: every other
call leaves them as they were. -/
theorem step_regression_coeffs (c : Call) (s : State)
    (hc : ∀ v1 r1 v2 r2, c ≠ Call.setLinearRegression v1 r1 v2 r2) :
    (step c s).dev._regressionCoeffA = s.dev._regressionCoeffA ∧
    (step c s).dev._regressionCoeffB = s.dev._regressionCoeffB := by
  cases c with
  | appendHardwareControlSS lo hi =>
    simp only [step, appendHardwareControlSS]
    split_ifs <;> exact ⟨rfl, rfl⟩
  | init => simp [step, init_dev]
  | setGain g => simp [step, setGain_dev]
  | getGain => exact ⟨rfl, rfl⟩
  | setFilterIntensity x => exact ⟨rfl, rfl⟩
  | slaveSelect => simp [step, slaveSelect_dev]
  | slaveRelease => simp [step, slaveRelease_dev]
  | command cmd => exact ⟨rfl, rfl⟩
  | updateRegisters => simp [step, updateRegisters_dev]
  | ready => simp [step, ready, command, transceive8]
  | halt => simp [step, halt]
  | update d k =>
    simp only [step]
    by_cases hready : s.dev._isReady = ADS1220flag.deviceReady
    · rw [update_ready_dev d k s hready]
      exact ⟨rfl, rfl⟩
    · unfold update
      rw [if_pos hready]
      exact ⟨rfl, rfl⟩
  | getRaw => exact ⟨rfl, rfl⟩
  | setLinearRegression v1 r1 v2 r2 => exact absurd rfl (hc v1 r1 v2 r2)
  | getLinearRegression => exact ⟨rfl, rfl⟩
  | writeReg i v =>
    simp only [step]
    split <;> exact ⟨rfl, rfl⟩

/-- A sequence of calls without setLinearRegression keeps the coefficients. -/
theorem run_regression_coeffs (cs : List Call) (s : State)
    (hc : ∀ v1 r1 v2 r2, Call.setLinearRegression v1 r1 v2 r2 ∉ cs) :
    (run cs s).dev._regressionCoeffA = s.dev._regressionCoeffA ∧
    (run cs s).dev._regressionCoeffB = s.dev._regressionCoeffB := by
  induction cs generalizing s with
  | nil => exact ⟨rfl, rfl⟩
  | cons c cs ih =>
    rw [run_cons]
    have hc' : ∀ v1 r1 v2 r2, Call.setLinearRegression v1 r1 v2 r2 ∉ cs :=
      fun v1 r1 v2 r2 hm => hc v1 r1 v2 r2 (List.mem_cons_of_mem _ hm)
    have hhead : ∀ v1 r1 v2 r2, c ≠ Call.setLinearRegression v1 r1 v2 r2 :=
      fun v1 r1 v2 r2 he => hc v1 r1 v2 r2 (he ▸ List.mem_cons_self _ _)
    obtain ⟨hA, hB⟩ := ih (step c s) hc'
    obtain ⟨hA', hB'⟩ := step_regression_coeffs c s hhead
    exact ⟨hA.trans hA', hB.trans hB'⟩

/-- C9 fails as stated: setLinearRegression(0, 1000, 50, 1000) has no result
to return (the method is void), and it overwrites the slope and the
intercept, which were 0, with the outcome of the division by zero. -/
theorem setLinearRegression_degenerate_stored :
    (fresh (constWorld 0)).dev._regressionCoeffA = some 0 ∧
    (fresh (constWorld 0)).dev._regressionCoeffB = some 0 ∧
    (setLinearRegression 0 1000 50 1000 (fresh (constWorld 0))).dev._regressionCoeffA = none ∧
    (setLinearRegression 0 1000 50 1000 (fresh (constWorld 0))).dev._regressionCoeffB = none := by
  refine ⟨rfl, rfl, ?_, ?_⟩ <;> rw [setLinearRegression_same_count]

/-- C9 as amended: for all v1, v2 and every raw count r,
setLinearRegression(v1, r, v2, r) reports nothing and replaces the slope and
the intercept by the outcome of the division by zero, which is not finite;
no other member and nothing in the environment changes; and after any
sequence of later calls without a new setLinearRegression, every update in
the ready state leaves the regression output not finite (in exact
evaluation and in binary32). -/
theorem setLinearRegression_degenerate (v1 v2 : ℚ) (r : Nat) (s : State) :
    setLinearRegression v1 r v2 r s
      = { s with dev := { s.dev with _regressionCoeffA := none, _regressionCoeffB := none } } ∧
    (∀ (cs : List Call) (d k : Nat),
      (∀ a b c e, Call.setLinearRegression a b c e ∉ cs) →
      (run cs (setLinearRegression v1 r v2 r s)).dev._isReady = ADS1220flag.deviceReady →
      (getLinearRegression (update d k (run cs (setLinearRegression v1 r v2 r s)))).1 = none ∧
      (∀ t, updateBinary32 d k (run cs (setLinearRegression v1 r v2 r s)) = some t →
        (getLinearRegression t).1 = none)) := by
  have h := setLinearRegression_same_count v1 v2 r s
  refine ⟨h, ?_⟩
  intro cs d k hcs hready
  obtain ⟨hA, hB⟩ := run_regression_coeffs cs (setLinearRegression v1 r v2 r s) hcs
  have hA0 : (setLinearRegression v1 r v2 r s).dev._regressionCoeffA = none := by rw [h]
  have hB0 : (setLinearRegression v1 r v2 r s).dev._regressionCoeffB = none := by rw [h]
  rw [hA0] at hA
  rw [hB0] at hB
  constructor
  · simp only [getLinearRegression]
    rw [update_ready_dev d k _ hready]
    simp only [hA, hB]
    rfl
  · intro t ht
    simp only [getLinearRegression]
    rw [updateBinary32_regressionResult d k _ t hready ht, hA, hB]
    rfl

/-- Witness of the amended C9: after a degenerate calibration of an armed
object and one sample, a second sample still leaves the regression output
not finite. -/
theorem setLinearRegression_degenerate_witness :
    (getLinearRegression (update 0 0 (run [Call.update 0 0, Call.getRaw]
      (setLinearRegression 0 1000 50 1000 (armed [0xAA, 0x00, 0x03, 0xE8]))))).1 = none :=
  ((setLinearRegression_degenerate 0 50 1000 (armed [0xAA, 0x00, 0x03, 0xE8])).2
    [Call.update 0 0, Call.getRaw] 0 0
    (by
      intro a b c e hm
      simp at hm)
    (by
      rw [setLinearRegression_same_count]
      rfl)).1

/-! ## The end-to-end scenario -/

/-- The members update does not store into, in the ready state. -/
theorem update_ready_frame (d k : Nat) (s : State)
    (hready : s.dev._isReady = ADS1220flag.deviceReady) :
    (update d k s).dev._isReady = s.dev._isReady ∧
    (update d k s).dev._filterAlpha = s.dev._filterAlpha ∧
    (update d k s).dev._regressionCoeffA = s.dev._regressionCoeffA ∧
    (update d k s).dev._regressionCoeffB = s.dev._regressionCoeffB := by
  rw [update_ready_dev d k s hready]
  exact ⟨rfl, rfl, rfl, rfl⟩

/-- The state after the set-up calls of the scenario that follow setGain. -/
theorem scenario_setup (s : State) :
    (ready (setLinearRegression 0 1000 50 805600 (setFilterIntensity 0 s))).dev._isReady
      = ADS1220flag.deviceReady ∧
    (ready (setLinearRegression 0 1000 50 805600 (setFilterIntensity 0 s))).dev._filterAlpha
      = 0 ∧
    (ready (setLinearRegression 0 1000 50 805600 (setFilterIntensity 0 s))).dev._regressionCoeffA
      = some (8540825 / 2 ^ 37) ∧
    (ready (setLinearRegression 0 1000 50 805600 (setFilterIntensity 0 s))).dev._regressionCoeffB
      = some (-(16681299 / 2 ^ 28)) ∧
    (ready (setLinearRegression 0 1000 50 805600 (setFilterIntensity 0 s))).world.pos
      = s.world.pos + 1 ∧
    (ready (setLinearRegression 0 1000 50 805600 (setFilterIntensity 0 s))).world.replies
      = s.world.replies := by
  rw [setLinearRegression_scenario, ready_eq]
  refine ⟨rfl, ?_, rfl, rfl, rfl, rfl⟩
  simp [setFilterIntensity]

/-- One sample of the scenario in binary32: with alpha = 0 and the stored
coefficients of the scenario, a sample with default arguments whose data
bytes are b0, b1, b2 is defined; the members it does not store into and the
environment are as after update. -/
theorem scenario_sample (s : State) (b0 b1 b2 : Nat)
    (hready : s.dev._isReady = ADS1220flag.deviceReady)
    (halpha : s.dev._filterAlpha = 0)
    (hA : s.dev._regressionCoeffA = some (8540825 / 2 ^ 37))
    (hB : s.dev._regressionCoeffB = some (-(16681299 / 2 ^ 28)))
    (h0 : s.world.replies (s.world.pos + 1) % 256 = b0)
    (h1 : s.world.replies (s.world.pos + 2) % 256 = b1)
    (h2 : s.world.replies (s.world.pos + 3) % 256 = b2) :
    ∃ t, updateBinary32 0 0 s = some t ∧
      t.dev._filteredRaw = ((65536 * b0 + 256 * b1 + b2 : Nat) : ℚ) ∧
      t.dev._regressionResult
        = f32add (f32mul (some (8540825 / 2 ^ 37))
            (some ((65536 * b0 + 256 * b1 + b2 : Nat) : ℚ))) (some (-(16681299 / 2 ^ 28))) ∧
      t.dev._isReady = ADS1220flag.deviceReady ∧
      t.dev._filterAlpha = 0 ∧
      t.dev._regressionCoeffA = some (8540825 / 2 ^ 37) ∧
      t.dev._regressionCoeffB = some (-(16681299 / 2 ^ 28)) ∧
      t.world.pos = s.world.pos + 4 ∧
      t.world.replies = s.world.replies := by
  have hf : (update 0 0 s).dev._filteredRaw = ((65536 * b0 + 256 * b1 + b2 : Nat) : ℚ) := by
    rw [update_filteredRaw_passthrough 0 0 s hready halpha]
    have hd : dataOffset 0 = 1 := rfl
    rw [hd, show s.world.pos + 1 + 1 = s.world.pos + 2 from rfl,
      show s.world.pos + 1 + 2 = s.world.pos + 3 from rfl, h0, h1, h2]
  obtain ⟨g1, g2, g3, g4⟩ := update_ready_frame 0 0 s hready
  refine ⟨_, updateBinary32_passthrough 0 0 s hready (le_of_eq halpha), hf, ?_,
    g1.trans hready, g2.trans halpha, g3.trans hA, g4.trans hB, ?_, ?_⟩
  · show f32add (f32mul s.dev._regressionCoeffA (some (update 0 0 s).dev._filteredRaw))
      s.dev._regressionCoeffB = _
    rw [hA, hB, hf]
  · show (update 0 0 s).world.pos = _
    rw [update_ready_world 0 0 s hready]
    rfl
  · show (update 0 0 s).world.replies = _
    rw [update_ready_world 0 0 s hready]

/-- The scenario in binary32, on every environment that answers according
to the scenario pattern. -/
theorem scenario_run (spiHandler raw0 : Nat) (filtered0 : ℚ) (w : World)
    (hw : answers w scenarioPattern) :
    let s0 : State := { dev := ADS1220.ctor spiHandler raw0 filtered0, world := w }
    let s1 := (init s0).2
    let s2 := (setGain 0b111 s1).2
    let s3 := setFilterIntensity 0 s2
    let s4 := setLinearRegression 0 1000 50 805600 s3
    let s5 := ready s4
    (init s0).1 = 0 ∧ (setGain 0b111 s1).1 = 0 ∧
    s5.dev._regressionCoeffA = some (8540825 / 2 ^ 37) ∧
    s5.dev._regressionCoeffB = some (-(16681299 / 2 ^ 28)) ∧
    ∃ s6 s7, updateBinary32 0 0 s5 = some s6 ∧ updateBinary32 0 0 s6 = some s7 ∧
      (getRaw s6).1 = 1000 ∧ (getLinearRegression s6).1 = some 0 ∧
      (getLinearRegression s7).1 = some (50 + 1 / 2 ^ 18) := by
  intro s0 s1 s2 s3 s4 s5
  have a7 : w.replies (w.pos + 7) % 256 = 0x0E := by
    simpa [scenarioPattern] using hw 7 (by decide)
  have a8 : w.replies (w.pos + 8) % 256 = 0xD4 := by
    simpa [scenarioPattern] using hw 8 (by decide)
  have a9 : w.replies (w.pos + 9) % 256 = 0x88 := by
    simpa [scenarioPattern] using hw 9 (by decide)
  have a10 : w.replies (w.pos + 10) % 256 = 0x00 := by
    simpa [scenarioPattern] using hw 10 (by decide)
  have a17 : w.replies (w.pos + 17) % 256 = 0x0E := by
    simpa [scenarioPattern] using hw 17 (by decide)
  have a23 : w.replies (w.pos + 23) % 256 = 0x00 := by
    simpa [scenarioPattern] using hw 23 (by decide)
  have a24 : w.replies (w.pos + 24) % 256 = 0x03 := by
    simpa [scenarioPattern] using hw 24 (by decide)
  have a25 : w.replies (w.pos + 25) % 256 = 0xE8 := by
    simpa [scenarioPattern] using hw 25 (by decide)
  have a27 : w.replies (w.pos + 27) % 256 = 0x0C := by
    simpa [scenarioPattern] using hw 27 (by decide)
  have a28 : w.replies (w.pos + 28) % 256 = 0x4A := by
    simpa [scenarioPattern] using hw 28 (by decide)
  have a29 : w.replies (w.pos + 29) % 256 = 0xE0 := by
    simpa [scenarioPattern] using hw 29 (by decide)
  have r1 : (init s0).1 = 0 := by
    rw [init_fst]
    simp [s0, ADS1220.ctor, ADS1220flag.unspecified, a7, a8, a9, a10]
  have p1 : s1.world.pos = w.pos + 11 := init_pos s0
  have q1 : s1.world.replies = w.replies := init_replies s0
  have c1 : s1.dev.configReg0 = 0x0E := (congrArg ADS1220.configReg0 (init_dev s0)).trans a7
  have r2 : (setGain 0b111 s1).1 = 0 := by
    rw [setGain_fst, c1, q1, p1, Nat.add_assoc, a17]
    rfl
  have p2 : s2.world.pos = w.pos + 21 :=
    (congrArg World.pos (setGain_world 0b111 s1)).trans (by rw [p1])
  have q2 : s2.world.replies = w.replies :=
    (congrArg World.replies (setGain_world 0b111 s1)).trans q1
  clear_value s2
  have h5 : s5.dev._isReady = ADS1220flag.deviceReady := (scenario_setup s2).1
  have al5 : s5.dev._filterAlpha = 0 := (scenario_setup s2).2.1
  have A5 : s5.dev._regressionCoeffA = some (8540825 / 2 ^ 37) := (scenario_setup s2).2.2.1
  have B5 : s5.dev._regressionCoeffB = some (-(16681299 / 2 ^ 28)) :=
    (scenario_setup s2).2.2.2.1
  have p5 : s5.world.pos = s2.world.pos + 1 := (scenario_setup s2).2.2.2.2.1
  have q5 : s5.world.replies = s2.world.replies := (scenario_setup s2).2.2.2.2.2
  have p5' : s5.world.pos = w.pos + 22 := p5.trans (by rw [p2])
  have q5' : s5.world.replies = w.replies := q5.trans q2
  clear_value s5
  obtain ⟨s6, e6, f6, l6, h6, al6, A6, B6, p6, q6⟩ :=
    scenario_sample s5 0x00 0x03 0xE8 h5 al5 A5 B5
      (by rw [q5', p5', Nat.add_assoc]; exact a23)
      (by rw [q5', p5', Nat.add_assoc]; exact a24)
      (by rw [q5', p5', Nat.add_assoc]; exact a25)
  have p6' : s6.world.pos = w.pos + 26 := p6.trans (by rw [p5'])
  have q6' : s6.world.replies = w.replies := q6.trans q5'
  obtain ⟨s7, e7, _, l7, _⟩ :=
    scenario_sample s6 0x0C 0x4A 0xE0 h6 al6 A6 B6
      (by rw [q6', p6', Nat.add_assoc]; exact a27)
      (by rw [q6', p6', Nat.add_assoc]; exact a28)
      (by rw [q6', p6', Nat.add_assoc]; exact a29)
  refine ⟨r1, r2, A5, B5, s6, s7, e6, e7, ?_, ?_, ?_⟩
  · show toUInt32 s6.dev._filteredRaw = 1000
    rw [f6]
    exact toUInt32_natCast _ (by norm_num)
  · show s6.dev._regressionResult = some 0
    rw [l6]
    exact scenario_output_low
  · show s7.dev._regressionResult = some (50 + 1 / 2 ^ 18)
    rw [l7]
    exact scenario_output_high

/-- C13 fails as stated: on a device that reads the registers back as
written, after init, setGain(gain128), setFilterIntensity(0),
setLinearRegression(0, 1000, 50, 805600) and ready, the second sample (data
bytes 0x0C, 0x4A, 0xE0) makes getLinearRegression return 50 + 2^-18, the
binary32 value 0x42480001, and not 50. -/
theorem end_to_end_scenario_not_exact :
    ∃ s6 s7,
      updateBinary32 0 0 (ready (setLinearRegression 0 1000 50 805600 (setFilterIntensity 0
        (setGain 0b111 (init { dev := ADS1220.ctor 0 0 0, world := scenarioWorld }).2).2)))
        = some s6 ∧
      updateBinary32 0 0 s6 = some s7 ∧
      (getLinearRegression s7).1 = some (50 + 1 / 2 ^ 18) ∧
      (getLinearRegression s7).1 ≠ some 50 := by
  obtain ⟨_, _, _, _, s6, s7, e6, e7, _, _, l7⟩ :=
    scenario_run 0 0 0 scenarioWorld (by decide)
  refine ⟨s6, s7, e6, e7, l7, ?_⟩
  rw [l7]
  norm_num

/-- C13 as amended: on a device that reads registers back as written, from
a freshly constructed object, in binary32: init returns 0; setGain(gain128)
returns 0; setLinearRegression(0, 1000, 50, 805600) stores the slope
0x38825299 and the intercept 0xBD7E8953; after setFilterIntensity(0) and
ready, an update with data bytes 0x00, 0x03, 0xE8 gives getRaw = 1000 and
getLinearRegression = 0, and a following update with data bytes 0x0C, 0x4A,
0xE0 gives getLinearRegression = 50 + 2^-18 (0x42480001). -/
theorem end_to_end_scenario_binary32 (spiHandler raw0 : Nat) (filtered0 : ℚ) (w : World)
    (hw : answers w scenarioPattern) :
    let s0 : State := { dev := ADS1220.ctor spiHandler raw0 filtered0, world := w }
    let s1 := (init s0).2
    let s2 := (setGain 0b111 s1).2
    let s3 := setFilterIntensity 0 s2
    let s4 := setLinearRegression 0 1000 50 805600 s3
    let s5 := ready s4
    (init s0).1 = 0 ∧ (setGain 0b111 s1).1 = 0 ∧
    s5.dev._regressionCoeffA = some (8540825 / 2 ^ 37) ∧
    s5.dev._regressionCoeffB = some (-(16681299 / 2 ^ 28)) ∧
    ∃ s6 s7, updateBinary32 0 0 s5 = some s6 ∧ updateBinary32 0 0 s6 = some s7 ∧
      (getRaw s6).1 = 1000 ∧ (getLinearRegression s6).1 = some 0 ∧
      (getLinearRegression s7).1 = some (50 + 1 / 2 ^ 18) :=
  scenario_run spiHandler raw0 filtered0 w hw

/-- Witness of the amended C13: the scenario environment answers according
to the pattern; on it the first sample gives getRaw = 1000 and the
regression output 0, and the second sample gives 50 + 2^-18. -/
theorem end_to_end_scenario_binary32_witness :
    answers scenarioWorld scenarioPattern ∧
    ∃ s6 s7,
      updateBinary32 0 0 (ready (setLinearRegression 0 1000 50 805600 (setFilterIntensity 0
        (setGain 0b111 (init { dev := ADS1220.ctor 0 0 0, world := scenarioWorld }).2).2)))
        = some s6 ∧
      updateBinary32 0 0 s6 = some s7 ∧
      (getRaw s6).1 = 1000 ∧ (getLinearRegression s6).1 = some 0 ∧
      (getLinearRegression s7).1 = some (50 + 1 / 2 ^ 18) :=
  ⟨by decide, (end_to_end_scenario_binary32 0 0 0 scenarioWorld (by decide)).2.2.2.2⟩

end ADS1220Driver
